import Mathlib

/-!
# Power sequencing controller (`src/main/src/power_control.c`)

A shallow embedding of the power controller of the blinkekatze firmware and
theorems about it.

* The controller's functions (`power_control_tx`, `config_changed`,
  `power_control_rx`, `force_input_current_limit`, `power_control_update`,
  `power_control_init`, `power_control_set_ignore_power_switch`,
  `power_control_is_powered_off`) are translated from the C source.
* The debounce filter (`debounce.h`) and the shared configuration
  synchronizer (`shared_config.h`) are not among the sources; they are
  modelled from sections 3, 4.1 and 4.2 of the specification.
* Hardware and library calls (GPIO, charger driver, timer, scheduler, radio)
  are external: every call is recorded in a trace, and what the outside world
  answers is read from an `environment` value.
* `ESP_ERROR_CHECK` is the ESP-IDF macro: a status other than `ESP_OK` aborts
  the program.  An aborted invocation is reported in `outcome.aborted`.
-/

namespace PowerControl

/-! ## Constants and types of headers outside the sources -/

/-- Status code of the ESP-IDF (`esp_err_t`); zero is success. -/
abbrev esp_err_t := Int

/-- The success status of the ESP-IDF. -/
def ESP_OK : esp_err_t := 0

/-- Values of macros and sizes of types declared in headers that are not part
of the sources (`wireless.h`, `shared_config.h`, `bq24295.h`). -/
structure header_constants where
  /-- packet type tag of power control packets (one byte) -/
  WIRELESS_PACKET_TYPE_POWER_CONTROL : Nat
  /-- number of broadcasts after a local change -/
  SHARED_CONFIG_TX_TIMES : Nat
  /-- delay between two retransmissions, in microseconds -/
  SHARED_CONFIG_TX_INTERVAL_US : Int
  /-- `sizeof(shared_config_hdr_t)` in bytes -/
  sizeof_shared_config_hdr_t : Nat
  /-- the "disabled" sentinel of the charger watchdog timeout -/
  BQ24295_WATCHDOG_TIMEOUT_DISABLED : Nat
  BQ24295_BATTERY_LOW_THRESHOLD_2_8V : Nat
  BQ24295_RECHARGE_THRESHOLD_300MV : Nat
  deriving DecidableEq, Repr

inductive gpio_mode_t where
  | GPIO_MODE_INPUT
  | GPIO_MODE_OUTPUT
  deriving DecidableEq, Repr

inductive gpio_pull_mode_t where
  | GPIO_PULLUP_ONLY
  | GPIO_PULLDOWN_ONLY
  deriving DecidableEq, Repr

/-! ## `util.h` -/

/-- `#define BIT(x) (1 << (x))` -/
def BIT (x : Nat) : Nat := 1 <<< x

/-- `#define MS_TO_US(ms) ((ms) * 1000)` -/
def MS_TO_US (ms : Int) : Int := ms * 1000

def GPIO_POWER_ON : Nat := 10
def GPIO_CHARGE_EN : Nat := 1

def CHARGER_WATCHDOG_RESET_INTERVAL_MS : Nat := 10000

/-- `#define FLAG_IGNORE_POWER_SWITCH BIT(0)` -/
def FLAG_IGNORE_POWER_SWITCH : Nat := BIT 0

inductive power_state_t where
  | POWER_STATE_ON
  | POWER_STATE_SOFT_OFF
  | POWER_STATE_HARD_OFF
  deriving DecidableEq, Repr

/-! ## Debounce filter (modelled from the specification) -/

/-- Modelled from the spec: the tri-state stable value of a debounce filter
(`debounce.h` is missing); section 3, `stable_value`. -/
inductive debounce_value_t where
  | DEBOUNCE_UNKNOWN
  | DEBOUNCE_TRUE
  | DEBOUNCE_FALSE
  deriving DecidableEq, Repr

/-- Modelled from the spec: `DebounceState` of section 3 (`debounce.h` is
missing).  `accumulating_value` is "the value currently being accumulated"
of section 4.1. -/
structure debounce_bool_t where
  required_consecutive_samples : Nat
  matching_count : Nat
  accumulating_value : Bool
  stable_value : debounce_value_t
  deriving DecidableEq, Repr

/-- The tri-state value that stands for a raw sample. -/
def debounce_value_of_bool (b : Bool) : debounce_value_t :=
  if b then .DEBOUNCE_TRUE else .DEBOUNCE_FALSE

/-- Modelled from the spec: `debounce_bool_init` (`debounce.c` is missing);
section 3: "created with a caller-chosen threshold", no history. -/
def debounce_bool_init (threshold : Nat) : debounce_bool_t :=
  { required_consecutive_samples := threshold
    matching_count := 0
    accumulating_value := false
    stable_value := .DEBOUNCE_UNKNOWN }

/-- Modelled from the spec: `debounce_bool_reset` (`debounce.c` is missing);
section 4.1: "clears `matching_count` to zero and sets `stable_value` to
`UNKNOWN`, discarding history". -/
def debounce_bool_reset (d : debounce_bool_t) : debounce_bool_t :=
  { d with matching_count := 0, stable_value := .DEBOUNCE_UNKNOWN }

/-- Modelled from the spec: `debounce_bool_get_value` (`debounce.c` is
missing); section 4.1: reads the stable value without side effects. -/
def debounce_bool_get_value (d : debounce_bool_t) : debounce_value_t :=
  d.stable_value

/-- Modelled from the spec: `debounce_bool_update` (`debounce.c` is missing);
section 4.1: a sample matching the value being accumulated increments
`matching_count`, any other sample restarts the accumulation at count 1; when
the count reaches the threshold the sample is committed as `stable_value`,
and the call reports whether the stable value changed.  Returns the report
and the new filter state. -/
def debounce_bool_update (d : debounce_bool_t) (raw_sample : Bool) :
    Bool × debounce_bool_t :=
  let count :=
    if raw_sample = d.accumulating_value then d.matching_count + 1 else 1
  let d1 : debounce_bool_t :=
    { d with matching_count := count, accumulating_value := raw_sample }
  if d.required_consecutive_samples ≤ count then
    (decide (d.stable_value ≠ debounce_value_of_bool raw_sample),
      { d1 with stable_value := debounce_value_of_bool raw_sample })
  else
    (false, d1)

/-! ## Shared configuration synchronizer (modelled from the specification) -/

/-- Modelled from the spec: `shared_config_hdr_t` (`shared_config.h` is
missing); section 3: the freshness header is a comparable token of the
sequence-number class.  On the wire it takes `sizeof_shared_config_hdr_t`
bytes. -/
abbrev shared_config_hdr_t := Nat

/-- Modelled from the spec: `ConfigEntry` of section 3 without its value
(`shared_config.h` is missing); the value, the flag `ignore_power_switch`,
lives in `power_control_t`. -/
structure shared_config_t where
  freshness_header : shared_config_hdr_t
  tx_deadline : Int
  tx_budget : Nat
  deriving DecidableEq, Repr

/-- Modelled from the spec: `shared_config_update_local` (`shared_config.c`
is missing); section 4.2: always accepted, bumps the freshness header and
arms `SHARED_CONFIG_TX_TIMES` retransmissions, the first one due at once. -/
def shared_config_update_local (K : header_constants) (now : Int)
    (cfg : shared_config_t) : shared_config_t :=
  { freshness_header := cfg.freshness_header + 1
    tx_deadline := now
    tx_budget := K.SHARED_CONFIG_TX_TIMES }

/-- Modelled from the spec: `shared_config_update_remote` (`shared_config.c`
is missing); section 4.2: a strictly newer header is adopted and accepted, an
equal or older one is ignored.  Returns the verdict and the new entry. -/
def shared_config_update_remote (cfg : shared_config_t)
    (hdr : shared_config_hdr_t) : Bool × shared_config_t :=
  if cfg.freshness_header < hdr then
    (true, { cfg with freshness_header := hdr })
  else
    (false, cfg)

/-- Modelled from the spec: `shared_config_should_tx` (`shared_config.c` is
missing); section 4.2: true exactly when the retransmission budget is not
exhausted and the retransmission deadline has elapsed. -/
def shared_config_should_tx (now : Int) (cfg : shared_config_t) : Bool :=
  decide (0 < cfg.tx_budget) && decide (cfg.tx_deadline ≤ now)

/-- Modelled from the spec: `shared_config_tx_done` (`shared_config.c` is
missing); section 4.2: decrements the retransmission budget and reschedules
the next retransmission deadline if budget remains. -/
def shared_config_tx_done (K : header_constants) (now : Int)
    (cfg : shared_config_t) : shared_config_t :=
  if 0 < cfg.tx_budget - 1 then
    { cfg with tx_budget := cfg.tx_budget - 1
               tx_deadline := now + K.SHARED_CONFIG_TX_INTERVAL_US }
  else
    { cfg with tx_budget := cfg.tx_budget - 1 }

/-- Modelled from the spec: `shared_config_hdr_init` (`shared_config.c` is
missing); sections 3 and 6: the header of an outgoing packet is the entry's
freshness header. -/
def shared_config_hdr_init (cfg : shared_config_t) : shared_config_hdr_t :=
  cfg.freshness_header

/-! ## The outside world -/

/-- One call of a function outside `power_control.c` with its arguments, as
recorded in the trace of an invocation.  A charger handle (`bq24295_t *`) is
represented by its address.  Calls of the logging macros are not recorded. -/
inductive call where
  | gpio_reset_pin (gpio_num : Nat)
  | gpio_set_direction (gpio_num : Nat) (mode : gpio_mode_t)
  | gpio_set_level (gpio_num : Nat) (level : Nat)
  | gpio_set_pull_mode (gpio_num : Nat) (pull : gpio_pull_mode_t)
  | gpio_get_level (gpio_num : Nat)
  | vTaskDelay (ms : Nat)
  | esp_timer_get_time
  | bq24295_set_shutdown (charger : Nat) (shutdown : Bool)
  | bq24295_reset (charger : Nat)
  | bq24295_set_min_system_voltage (charger : Nat) (mv : Nat)
  | bq24295_set_boost_voltage (charger : Nat) (mv : Nat)
  | bq24295_set_input_current_limit (charger : Nat) (ma : Nat)
  | bq24295_get_input_current_limit (charger : Nat)
  | bq24295_set_charge_current (charger : Nat) (ma : Nat)
  | bq24295_set_termination_current (charger : Nat) (ma : Nat)
  | bq24295_set_battery_low_threshold (charger : Nat) (threshold : Nat)
  | bq24295_set_recharge_threshold (charger : Nat) (threshold : Nat)
  | bq24295_is_power_good (charger : Nat)
  | bq24295_set_watchdog_timeout (charger : Nat) (timeout : Nat)
  | bq24295_watchdog_reset (charger : Nat)
  | shared_config_update_local
  | shared_config_update_remote (hdr : shared_config_hdr_t)
  | shared_config_should_tx
  | shared_config_hdr_init
  | shared_config_tx_done
  | wireless_broadcast (data : List Nat)
  | scheduler_task_init
  | scheduler_schedule_task_relative (delay_us : Int)
  deriving DecidableEq, Repr

/-- What the outside world answers during one invocation of an entry point.
Every external function is called at most once per argument list in one
invocation, so a status per call covers every behaviour of the drivers. -/
structure environment where
  /-- value returned by `gpio_get_level(GPIO_POWER_ON)` -/
  gpio_level : Int
  /-- value returned by `esp_timer_get_time()`, microseconds since boot -/
  esp_timer : Int
  /-- status returned by each call of the charger driver -/
  charger_status : call → esp_err_t
  /-- value stored by a successful `bq24295_is_power_good` -/
  power_good : Bool
  /-- value stored by a successful `bq24295_get_input_current_limit` -/
  current_limit_ma : Nat

/-- `wireless_packet_t` of `wireless.h`, as far as `power_control_rx` reads
it: the received length and the received bytes. -/
structure wireless_packet_t where
  len : Nat
  data : List Nat
  deriving DecidableEq, Repr

/-! ## Controller state -/

/-- `struct power_control`.  The scheduler task `update_task` belongs to the
external scheduler and is represented by the scheduler calls of the trace. -/
structure power_control_t where
  charger : Nat
  timestamp_charger_watchdog_reset : Int
  shared_cfg : shared_config_t
  power_switch_debounce : debounce_bool_t
  power_good_debounce : debounce_bool_t
  power_state : power_state_t
  ignore_power_switch : Bool
  deriving DecidableEq, Repr

/-- `static power_control_t power_control = { 0 };` -/
def power_control_zero : power_control_t :=
  { charger := 0
    timestamp_charger_watchdog_reset := 0
    shared_cfg := { freshness_header := 0, tx_deadline := 0, tx_budget := 0 }
    power_switch_debounce :=
      { required_consecutive_samples := 0, matching_count := 0
        accumulating_value := false, stable_value := .DEBOUNCE_UNKNOWN }
    power_good_debounce :=
      { required_consecutive_samples := 0, matching_count := 0
        accumulating_value := false, stable_value := .DEBOUNCE_UNKNOWN }
    power_state := .POWER_STATE_ON
    ignore_power_switch := false }

/-- Result of running one function of the controller: the global
`power_control` afterwards, the external calls made, in order, and whether
an `ESP_ERROR_CHECK` aborted the program before the function returned. -/
structure outcome where
  power_control : power_control_t
  calls : List call
  aborted : Bool
  deriving DecidableEq, Repr

/-! ## Wire format of `power_control_packet_t` -/

/-- Object representation of a `shared_config_hdr_t`: little endian, as many
bytes as the type is wide. -/
def shared_config_hdr_bytes (K : header_constants) (hdr : shared_config_hdr_t) :
    List Nat :=
  (List.range K.sizeof_shared_config_hdr_t).map (fun i => hdr / 256 ^ i % 256)

/-- The `shared_config_hdr_t` held by a sequence of bytes (little endian). -/
def shared_config_hdr_of_bytes (bytes : List Nat) : shared_config_hdr_t :=
  bytes.foldr (fun b acc => b % 256 + 256 * acc) 0

/-- `sizeof(power_control_packet_t)`: the struct is packed, two `uint8_t`
followed by the header. -/
def sizeof_power_control_packet_t (K : header_constants) : Nat :=
  1 + 1 + K.sizeof_shared_config_hdr_t

/-- The bytes `[offset, offset + n)` of a buffer, as `memcpy` reads them. -/
def read_bytes (data : List Nat) (offset n : Nat) : List Nat :=
  (List.range n).map (fun i => data.getD (offset + i) 0)

/-- `struct power_control_packet` (packed). -/
structure power_control_packet_t where
  packet_type : Nat
  flags : Nat
  shared_cfg_hdr : shared_config_hdr_t
  deriving DecidableEq, Repr

/-- Object representation of a `power_control_packet_t`, the bytes behind
`(const uint8_t *)&packet`: no padding between the fields. -/
def power_control_packet_bytes (K : header_constants) (packet : power_control_packet_t) :
    List Nat :=
  [packet.packet_type % 256, packet.flags % 256] ++
    shared_config_hdr_bytes K packet.shared_cfg_hdr

/-- The `power_control_packet_t` that `memcpy` fills from the first
`sizeof(power_control_packet_t)` bytes of a buffer. -/
def power_control_packet_of_bytes (K : header_constants) (data : List Nat) :
    power_control_packet_t :=
  { packet_type := data.getD 0 0 % 256
    flags := data.getD 1 0 % 256
    shared_cfg_hdr :=
      shared_config_hdr_of_bytes (read_bytes data 2 K.sizeof_shared_config_hdr_t) }

/-- The packet a node receives when the bytes `data` were broadcast. -/
def received_packet (data : List Nat) : wireless_packet_t :=
  { len := data.length, data := data }

/-! ## `power_control.c`: functions -/

/-- The packet `power_control_tx` builds (lines 53-58). -/
def power_control_tx_packet (K : header_constants) (pc : power_control_t) :
    power_control_packet_t :=
  { packet_type := K.WIRELESS_PACKET_TYPE_POWER_CONTROL
    flags := if pc.ignore_power_switch then FLAG_IGNORE_POWER_SWITCH else 0
    shared_cfg_hdr := shared_config_hdr_init pc.shared_cfg }

/-- `power_control_tx` (lines 52-61). -/
def power_control_tx (K : header_constants) (env : environment)
    (pc : power_control_t) : outcome :=
  let packet := power_control_tx_packet K pc
  { power_control :=
      { pc with shared_cfg := shared_config_tx_done K env.esp_timer pc.shared_cfg }
    calls := [.shared_config_hdr_init,
              .wireless_broadcast (power_control_packet_bytes K packet),
              .shared_config_tx_done]
    aborted := false }

/-- The loop of `config_changed` (lines 66-68): `n` iterations are left. -/
def config_changed_loop (K : header_constants) (env : environment) :
    Nat → power_control_t → outcome
  | 0, pc => { power_control := pc, calls := [], aborted := false }
  | n + 1, pc =>
    let r := power_control_tx K env pc
    let r1 := config_changed_loop K env n r.power_control
    { power_control := r1.power_control, calls := r.calls ++ r1.calls, aborted := false }

/-- `config_changed` (lines 63-69). -/
def config_changed (K : header_constants) (env : environment)
    (pc : power_control_t) : outcome :=
  let pc1 := { pc with shared_cfg := shared_config_update_local K env.esp_timer pc.shared_cfg }
  let r := config_changed_loop K env K.SHARED_CONFIG_TX_TIMES pc1
  { power_control := r.power_control
    calls := call.shared_config_update_local :: r.calls
    aborted := false }

/-- `power_control_rx` (lines 71-83). -/
def power_control_rx (K : header_constants) (packet : wireless_packet_t)
    (pc : power_control_t) : outcome :=
  if packet.len < sizeof_power_control_packet_t K then
    { power_control := pc, calls := [], aborted := false }
  else
    let config_packet := power_control_packet_of_bytes K packet.data
    let r := shared_config_update_remote pc.shared_cfg config_packet.shared_cfg_hdr
    let pc1 := { pc with shared_cfg := r.2 }
    if r.1 then
      { power_control :=
          { pc1 with ignore_power_switch :=
                       (config_packet.flags &&& FLAG_IGNORE_POWER_SWITCH) != 0 }
        calls := [.shared_config_update_remote config_packet.shared_cfg_hdr]
        aborted := false }
    else
      { power_control := pc1
        calls := [.shared_config_update_remote config_packet.shared_cfg_hdr]
        aborted := false }

/-- `force_input_current_limit` (lines 85-97). -/
def force_input_current_limit (env : environment) (pc : power_control_t) :
    outcome :=
  let err := env.charger_status (.bq24295_get_input_current_limit pc.charger)
  if err ≠ 0 then
    { power_control := pc
      calls := [.bq24295_get_input_current_limit pc.charger]
      aborted := false }
  else if env.current_limit_ma ≠ 1500 then
    { power_control := pc
      calls := [.bq24295_get_input_current_limit pc.charger,
                .bq24295_set_input_current_limit pc.charger 1500]
      aborted := false }
  else
    { power_control := pc
      calls := [.bq24295_get_input_current_limit pc.charger]
      aborted := false }

/-- The `switch` statement of `power_control_update` (lines 102-129); the
switch sample has already been fed to `power_switch_debounce`. -/
def power_control_update_switch (K : header_constants) (env : environment)
    (pc : power_control_t) : outcome :=
  match pc.power_state with
  | .POWER_STATE_ON =>
    if debounce_bool_get_value pc.power_switch_debounce = .DEBOUNCE_FALSE then
      { power_control :=
          { pc with power_good_debounce := debounce_bool_reset pc.power_good_debounce
                    power_state := .POWER_STATE_SOFT_OFF }
        calls := [], aborted := false }
    else
      { power_control := pc, calls := [], aborted := false }
  | .POWER_STATE_SOFT_OFF =>
    if debounce_bool_get_value pc.power_switch_debounce = .DEBOUNCE_TRUE then
      { power_control := { pc with power_state := .POWER_STATE_ON }
        calls := [], aborted := false }
    else if debounce_bool_get_value pc.power_switch_debounce = .DEBOUNCE_FALSE then
      let is_power_good := call.bq24295_is_power_good pc.charger
      let err := env.charger_status is_power_good
      if err ≠ 0 then
        { power_control := pc, calls := [is_power_good], aborted := false }
      else
        let upd := debounce_bool_update pc.power_good_debounce env.power_good
        let pc1 := { pc with power_good_debounce := upd.2 }
        if upd.1 && decide (debounce_bool_get_value upd.2 = .DEBOUNCE_FALSE) then
          let set_watchdog_timeout :=
            call.bq24295_set_watchdog_timeout pc.charger K.BQ24295_WATCHDOG_TIMEOUT_DISABLED
          let set_shutdown := call.bq24295_set_shutdown pc.charger true
          if env.charger_status set_watchdog_timeout ≠ ESP_OK then
            { power_control := pc1
              calls := [is_power_good, set_watchdog_timeout], aborted := true }
          else if env.charger_status set_shutdown ≠ ESP_OK then
            { power_control := pc1
              calls := [is_power_good, set_watchdog_timeout, set_shutdown]
              aborted := true }
          else
            { power_control := { pc1 with power_state := .POWER_STATE_HARD_OFF }
              calls := [is_power_good, set_watchdog_timeout, set_shutdown]
              aborted := false }
        else
          { power_control := pc1, calls := [is_power_good], aborted := false }
    else
      { power_control := pc, calls := [], aborted := false }
  | .POWER_STATE_HARD_OFF =>
    if debounce_bool_get_value pc.power_switch_debounce = .DEBOUNCE_TRUE then
      { power_control := { pc with power_state := .POWER_STATE_ON }
        calls := [], aborted := false }
    else
      { power_control := pc, calls := [], aborted := false }

/-- Milliseconds since the last charger watchdog reset (lines 131-132): the
clock and the timestamp are subtracted as `uint64_t`. -/
def ms_since_last_watchdog_reset (env : environment) (pc : power_control_t) : Nat :=
  ((env.esp_timer - pc.timestamp_charger_watchdog_reset) % 2 ^ 64).toNat / 1000

/-- Charger maintenance of `power_control_update` (lines 131-136). -/
def power_control_update_charger (env : environment) (pc : power_control_t) :
    outcome :=
  if CHARGER_WATCHDOG_RESET_INTERVAL_MS ≤ ms_since_last_watchdog_reset env pc then
    let r := force_input_current_limit env pc
    { power_control := r.power_control
      calls := call.esp_timer_get_time :: r.calls ++ [.bq24295_watchdog_reset pc.charger]
      aborted := false }
  else
    { power_control := pc, calls := [.esp_timer_get_time], aborted := false }

/-- Retransmission of `power_control_update` (lines 138-140). -/
def power_control_update_tx (K : header_constants) (env : environment)
    (pc : power_control_t) : outcome :=
  if shared_config_should_tx env.esp_timer pc.shared_cfg then
    let r := power_control_tx K env pc
    { power_control := r.power_control
      calls := call.shared_config_should_tx :: r.calls
      aborted := false }
  else
    { power_control := pc, calls := [.shared_config_should_tx], aborted := false }

/-- `power_control_update` (lines 99-142): one tick of the periodic task. -/
def power_control_update (K : header_constants) (env : environment)
    (pc : power_control_t) : outcome :=
  let power_switch_state := (env.gpio_level != 0) || pc.ignore_power_switch
  let pc1 :=
    { pc with power_switch_debounce :=
                (debounce_bool_update pc.power_switch_debounce power_switch_state).2 }
  let r1 := power_control_update_switch K env pc1
  if r1.aborted then
    { power_control := r1.power_control
      calls := call.gpio_get_level GPIO_POWER_ON :: r1.calls
      aborted := true }
  else
    let r2 := power_control_update_charger env r1.power_control
    let r3 := power_control_update_tx K env r2.power_control
    { power_control := r3.power_control
      calls := call.gpio_get_level GPIO_POWER_ON :: r1.calls ++ r2.calls ++ r3.calls
                ++ [.scheduler_schedule_task_relative (MS_TO_US 250)]
      aborted := false }

/-- The nine charger calls of `power_control_init`, in program order. -/
def power_control_init_charger_calls (K : header_constants) (charger : Nat) :
    List call :=
  [ .bq24295_set_shutdown charger false,
    .bq24295_reset charger,
    .bq24295_set_min_system_voltage charger 3000,
    .bq24295_set_boost_voltage charger 4550,
    .bq24295_set_input_current_limit charger 1500,
    .bq24295_set_charge_current charger 1024,
    .bq24295_set_termination_current charger 128,
    .bq24295_set_battery_low_threshold charger K.BQ24295_BATTERY_LOW_THRESHOLD_2_8V,
    .bq24295_set_recharge_threshold charger K.BQ24295_RECHARGE_THRESHOLD_300MV ]

/-- The GPIO setup at the start of `power_control_init` (lines 145-151). -/
def power_control_init_gpio_calls : List call :=
  [ .gpio_reset_pin GPIO_CHARGE_EN,
    .gpio_set_direction GPIO_CHARGE_EN .GPIO_MODE_OUTPUT,
    .gpio_set_level GPIO_CHARGE_EN 0,
    .gpio_reset_pin GPIO_POWER_ON,
    .gpio_set_direction GPIO_POWER_ON .GPIO_MODE_INPUT,
    .gpio_set_pull_mode GPIO_POWER_ON .GPIO_PULLDOWN_ONLY ]

/-- `power_control_init` (lines 144-220): the returned status and the
outcome. -/
def power_control_init (K : header_constants) (env : environment) (charger : Nat)
    (pc : power_control_t) : esp_err_t × outcome :=
  let t0 := power_control_init_gpio_calls
  -- Enable BATFET
  let t1 := t0 ++ [.bq24295_set_shutdown charger false]
  let err := env.charger_status (.bq24295_set_shutdown charger false)
  if err ≠ 0 then (err, { power_control := pc, calls := t1, aborted := false }) else
  -- Reset charger to default settings
  let t2 := t1 ++ [.bq24295_reset charger]
  let err := env.charger_status (.bq24295_reset charger)
  if err ≠ 0 then (err, { power_control := pc, calls := t2, aborted := false }) else
  let t2 := t2 ++ [.vTaskDelay 10]
  -- Min system voltage 3.0V
  let t3 := t2 ++ [.bq24295_set_min_system_voltage charger 3000]
  let err := env.charger_status (.bq24295_set_min_system_voltage charger 3000)
  if err ≠ 0 then (err, { power_control := pc, calls := t3, aborted := false }) else
  -- Boost voltage 4.55V
  let t4 := t3 ++ [.bq24295_set_boost_voltage charger 4550]
  let err := env.charger_status (.bq24295_set_boost_voltage charger 4550)
  if err ≠ 0 then (err, { power_control := pc, calls := t4, aborted := false }) else
  -- Set input current limit
  let t5 := t4 ++ [.bq24295_set_input_current_limit charger 1500]
  let err := env.charger_status (.bq24295_set_input_current_limit charger 1500)
  if err ≠ 0 then (err, { power_control := pc, calls := t5, aborted := false }) else
  -- Set charging current to 1024mA
  let t6 := t5 ++ [.bq24295_set_charge_current charger 1024]
  let err := env.charger_status (.bq24295_set_charge_current charger 1024)
  if err ≠ 0 then (err, { power_control := pc, calls := t6, aborted := false }) else
  -- Terminate charge at 128mA
  let t7 := t6 ++ [.bq24295_set_termination_current charger 128]
  let err := env.charger_status (.bq24295_set_termination_current charger 128)
  if err ≠ 0 then (err, { power_control := pc, calls := t7, aborted := false }) else
  -- Assert battery low at 2.8V
  let t8 := t7 ++
    [.bq24295_set_battery_low_threshold charger K.BQ24295_BATTERY_LOW_THRESHOLD_2_8V]
  let err := env.charger_status
    (.bq24295_set_battery_low_threshold charger K.BQ24295_BATTERY_LOW_THRESHOLD_2_8V)
  if err ≠ 0 then (err, { power_control := pc, calls := t8, aborted := false }) else
  -- Recharge battery if 300mV below charging voltage after charging
  let t9 := t8 ++
    [.bq24295_set_recharge_threshold charger K.BQ24295_RECHARGE_THRESHOLD_300MV]
  let err := env.charger_status
    (.bq24295_set_recharge_threshold charger K.BQ24295_RECHARGE_THRESHOLD_300MV)
  if err ≠ 0 then (err, { power_control := pc, calls := t9, aborted := false }) else
  (ESP_OK,
    { power_control :=
        { pc with charger := charger
                  power_state := .POWER_STATE_ON
                  power_switch_debounce := debounce_bool_init 3
                  power_good_debounce := debounce_bool_init 5 }
      calls := t9 ++ [.scheduler_task_init,
                      .scheduler_schedule_task_relative (MS_TO_US 100)]
      aborted := false })

/-- `power_control_set_ignore_power_switch` (lines 222-227). -/
def power_control_set_ignore_power_switch (K : header_constants)
    (env : environment) (ignore : Bool) (pc : power_control_t) : outcome :=
  if ignore ≠ pc.ignore_power_switch then
    config_changed K env { pc with ignore_power_switch := ignore }
  else
    { power_control := pc, calls := [], aborted := false }

/-- `power_control_is_powered_off` (lines 229-231). -/
def power_control_is_powered_off (pc : power_control_t) : Bool :=
  pc.power_state != .POWER_STATE_ON

/-! ## Running several ticks -/

/-- The ticks of the periodic task for the given environments, one after the
other; the run stops at a tick that aborts.  Returns the outcome of every
tick that ran. -/
def run_ticks (K : header_constants) :
    List environment → power_control_t → List outcome
  | [], _ => []
  | env :: envs, pc =>
    let r := power_control_update K env pc
    if r.aborted then [r] else r :: run_ticks K envs r.power_control

/-! ## Classification of calls -/

/-- The call commands the charger to shut down (`bq24295_set_shutdown` with
`true`). -/
def is_shutdown_command : call → Bool
  | .bq24295_set_shutdown _ shutdown => shutdown
  | _ => false

/-- The call disables the charger watchdog (`bq24295_set_watchdog_timeout`
with the "disabled" sentinel). -/
def is_watchdog_disable_command (K : header_constants) : call → Bool
  | .bq24295_set_watchdog_timeout _ timeout =>
    timeout == K.BQ24295_WATCHDOG_TIMEOUT_DISABLED
  | _ => false

/-- The call goes to the charger driver. -/
def is_charger_call : call → Bool
  | .bq24295_set_shutdown _ _ => true
  | .bq24295_reset _ => true
  | .bq24295_set_min_system_voltage _ _ => true
  | .bq24295_set_boost_voltage _ _ => true
  | .bq24295_set_input_current_limit _ _ => true
  | .bq24295_get_input_current_limit _ => true
  | .bq24295_set_charge_current _ _ => true
  | .bq24295_set_termination_current _ _ => true
  | .bq24295_set_battery_low_threshold _ _ => true
  | .bq24295_set_recharge_threshold _ _ => true
  | .bq24295_is_power_good _ => true
  | .bq24295_set_watchdog_timeout _ _ => true
  | .bq24295_watchdog_reset _ => true
  | _ => false

/-- The call re-asserts the input current limit or resets the charger
watchdog: the charger maintenance of the periodic task. -/
def is_maintenance_call : call → Bool
  | .bq24295_get_input_current_limit _ => true
  | .bq24295_set_input_current_limit _ _ => true
  | .bq24295_watchdog_reset _ => true
  | _ => false

/-- The call sends a packet. -/
def is_broadcast : call → Bool
  | .wireless_broadcast _ => true
  | _ => false

/-- The call schedules a task. -/
def is_schedule_call : call → Bool
  | .scheduler_task_init => true
  | .scheduler_schedule_task_relative _ => true
  | _ => false

/-- The call is one the `switch` statement of the periodic task makes: the
power-good query, the watchdog timeout and the shutdown command. -/
def is_power_sequencing_call : call → Bool
  | .bq24295_is_power_good _ => true
  | .bq24295_set_watchdog_timeout _ _ => true
  | .bq24295_set_shutdown _ _ => true
  | _ => false

/-! ## Auxiliary definitions for the statements -/

/-- The switch filter as it is after the sample of the tick went in. -/
def switch_debounce_after (env : environment) (pc : power_control_t) : debounce_bool_t :=
  (debounce_bool_update pc.power_switch_debounce
    ((env.gpio_level != 0) || pc.ignore_power_switch)).2

/-- The controller as the `switch` statement of a tick finds it. -/
def power_control_sampled (env : environment) (pc : power_control_t) : power_control_t :=
  { pc with power_switch_debounce := switch_debounce_after env pc }

/-- The steps of a tick after the `switch` statement. -/
def power_control_update_rest (K : header_constants) (env : environment)
    (r1 : outcome) : outcome :=
  if r1.aborted then
    { power_control := r1.power_control
      calls := call.gpio_get_level GPIO_POWER_ON :: r1.calls
      aborted := true }
  else
    let r2 := power_control_update_charger env r1.power_control
    let r3 := power_control_update_tx K env r2.power_control
    { power_control := r3.power_control
      calls := call.gpio_get_level GPIO_POWER_ON :: r1.calls ++ r2.calls ++ r3.calls
                ++ [.scheduler_schedule_task_relative (MS_TO_US 250)]
      aborted := false }

/-- The filter has threshold `N`, stable value TRUE and is `k` low samples
into a run of low samples (`k = 0`: no low sample is being accumulated). -/
def low_run (N : Nat) (d : debounce_bool_t) (k : Nat) : Prop :=
  d.required_consecutive_samples = N ∧ d.stable_value = .DEBOUNCE_TRUE ∧
  if k = 0 then d.accumulating_value = true ∨ d.matching_count = 0
  else d.accumulating_value = false ∧ d.matching_count = k

/-- The calls `power_control_tx` makes when run once for each of the given
packets: header, broadcast of the packet, `shared_config_tx_done`. -/
def tx_trace : List (List Nat) → List call
  | [] => []
  | data :: rest =>
    [.shared_config_hdr_init, .wireless_broadcast data, .shared_config_tx_done] ++
      tx_trace rest

instance (N : Nat) (d : debounce_bool_t) (k : Nat) : Decidable (low_run N d k) := by
  unfold low_run
  infer_instance

/-! ## Sample data -/

/-- Sample values for the constants of the missing headers. -/
def sample_constants : header_constants :=
  { WIRELESS_PACKET_TYPE_POWER_CONTROL := 7
    SHARED_CONFIG_TX_TIMES := 3
    SHARED_CONFIG_TX_INTERVAL_US := 20000
    sizeof_shared_config_hdr_t := 8
    BQ24295_WATCHDOG_TIMEOUT_DISABLED := 0
    BQ24295_BATTERY_LOW_THRESHOLD_2_8V := 0
    BQ24295_RECHARGE_THRESHOLD_300MV := 1 }

/-- An environment at time `now` with GPIO level `level` in which every
charger call succeeds, power is not good and the input current limit reads
1500 mA. -/
def sample_env (level : Int) (now : Int) : environment :=
  { gpio_level := level
    esp_timer := now
    charger_status := fun _ => ESP_OK
    power_good := false
    current_limit_ma := 1500 }

/-- The controller right after a successful `power_control_init` with the
charger at address 1. -/
def sample_power_control : power_control_t :=
  (power_control_init sample_constants (sample_env 1 0) 1 power_control_zero).2.power_control

/-- The controller in SOFT_OFF: the switch has been low for three ticks and
the power-good filter, reset on leaving ON, has seen power absent on four
ticks. -/
def sample_soft_off : power_control_t :=
  { sample_power_control with
      power_state := .POWER_STATE_SOFT_OFF
      power_switch_debounce :=
        { required_consecutive_samples := 3, matching_count := 3
          accumulating_value := false, stable_value := .DEBOUNCE_FALSE }
      power_good_debounce :=
        { required_consecutive_samples := 5, matching_count := 4
          accumulating_value := false, stable_value := .DEBOUNCE_UNKNOWN } }

/-- An environment like `sample_env 0 now` in which the charger refuses to
change its watchdog timeout (status `ESP_FAIL`, -1). -/
def sample_env_watchdog_fails (now : Int) : environment :=
  { sample_env 0 now with
      charger_status := fun c =>
        match c with
        | .bq24295_set_watchdog_timeout _ _ => -1
        | _ => ESP_OK }

/-- The controller in ON with the switch debounced to TRUE: three ticks after
`power_control_init` that read the switch high. -/
def sample_on_pressed : power_control_t :=
  (power_control_update sample_constants (sample_env 1 500000)
    (power_control_update sample_constants (sample_env 1 250000)
      (power_control_update sample_constants (sample_env 1 0)
        sample_power_control).power_control).power_control).power_control

/-- An environment like `sample_env 1 now` in which the charger fails to
reset (status `ESP_FAIL`, -1). -/
def sample_env_reset_fails (now : Int) : environment :=
  { sample_env 1 now with
      charger_status := fun c =>
        match c with
        | .bq24295_reset _ => -1
        | _ => ESP_OK }

/-- An environment like `sample_env 0 now` in which the power-good query
fails (status `ESP_FAIL`, -1). -/
def sample_env_power_good_fails (now : Int) : environment :=
  { sample_env 0 now with
      charger_status := fun c =>
        match c with
        | .bq24295_is_power_good _ => -1
        | _ => ESP_OK }

/-- An environment like `sample_env 0 now` in which the charger accepts the
watchdog timeout and refuses the shutdown command (status `ESP_FAIL`, -1). -/
def sample_env_shutdown_fails (now : Int) : environment :=
  { sample_env 0 now with
      charger_status := fun c =>
        match c with
        | .bq24295_set_shutdown _ _ => -1
        | _ => ESP_OK }

/-! ## Frame lemmas -/

theorem power_control_tx_power_control (K : header_constants) (env : environment)
    (pc : power_control_t) :
    (power_control_tx K env pc).power_control =
      { pc with shared_cfg := shared_config_tx_done K env.esp_timer pc.shared_cfg } := rfl

theorem force_input_current_limit_power_control (env : environment)
    (pc : power_control_t) : (force_input_current_limit env pc).power_control = pc := by
  simp only [force_input_current_limit]
  split_ifs <;> rfl

theorem power_control_update_charger_power_control (env : environment)
    (pc : power_control_t) : (power_control_update_charger env pc).power_control = pc := by
  simp only [power_control_update_charger]
  split_ifs
  · exact force_input_current_limit_power_control env pc
  · rfl

/-- The retransmission step touches the shared configuration entry only. -/
theorem power_control_update_tx_power_control (K : header_constants)
    (env : environment) (pc : power_control_t) :
    ∃ cfg, (power_control_update_tx K env pc).power_control = { pc with shared_cfg := cfg } := by
  simp only [power_control_update_tx]
  split_ifs
  · exact ⟨_, rfl⟩
  · exact ⟨pc.shared_cfg, rfl⟩

theorem power_control_update_eq (K : header_constants) (env : environment)
    (pc : power_control_t) :
    power_control_update K env pc =
      power_control_update_rest K env
        (power_control_update_switch K env (power_control_sampled env pc)) := rfl

/-- A tick aborts exactly when its `switch` statement does. -/
theorem power_control_update_rest_aborted (K : header_constants)
    (env : environment) (r1 : outcome) :
    (power_control_update_rest K env r1).aborted = r1.aborted := by
  simp only [power_control_update_rest]
  split_ifs with h
  · simp [h]
  · simpa using h

/-- After the `switch` statement a tick changes the shared configuration
entry only. -/
theorem power_control_update_rest_power_control (K : header_constants)
    (env : environment) (r1 : outcome) :
    ∃ cfg, (power_control_update_rest K env r1).power_control =
      { r1.power_control with shared_cfg := cfg } := by
  simp only [power_control_update_rest]
  split_ifs with h
  · exact ⟨r1.power_control.shared_cfg, rfl⟩
  · rw [power_control_update_charger_power_control]
    exact power_control_update_tx_power_control K env r1.power_control

theorem power_control_update_power_state (K : header_constants)
    (env : environment) (pc : power_control_t) :
    (power_control_update K env pc).power_control.power_state =
      (power_control_update_switch K env (power_control_sampled env pc)).power_control.power_state := by
  obtain ⟨cfg, h⟩ := power_control_update_rest_power_control K env
    (power_control_update_switch K env (power_control_sampled env pc))
  rw [power_control_update_eq, h]

theorem power_control_update_power_good_debounce (K : header_constants)
    (env : environment) (pc : power_control_t) :
    (power_control_update K env pc).power_control.power_good_debounce =
      (power_control_update_switch K env
        (power_control_sampled env pc)).power_control.power_good_debounce := by
  obtain ⟨cfg, h⟩ := power_control_update_rest_power_control K env
    (power_control_update_switch K env (power_control_sampled env pc))
  rw [power_control_update_eq, h]

theorem power_control_update_aborted (K : header_constants)
    (env : environment) (pc : power_control_t) :
    (power_control_update K env pc).aborted =
      (power_control_update_switch K env (power_control_sampled env pc)).aborted := by
  rw [power_control_update_eq, power_control_update_rest_aborted]

/-! ## Calls of a tick -/

theorem power_control_update_switch_power_switch_debounce (K : header_constants)
    (env : environment) (pc : power_control_t) :
    (power_control_update_switch K env pc).power_control.power_switch_debounce =
      pc.power_switch_debounce := by
  unfold power_control_update_switch
  cases pc.power_state <;> simp only <;> split_ifs <;> rfl

theorem power_control_update_charger_calls_filter (env : environment)
    (pc : power_control_t) :
    (power_control_update_charger env pc).calls.filter is_power_sequencing_call = [] := by
  simp only [power_control_update_charger, force_input_current_limit]
  split_ifs <;> simp [is_power_sequencing_call]

theorem power_control_update_tx_calls_filter (K : header_constants)
    (env : environment) (pc : power_control_t) :
    (power_control_update_tx K env pc).calls.filter is_power_sequencing_call = [] := by
  simp only [power_control_update_tx, power_control_tx]
  split_ifs <;> simp [is_power_sequencing_call]

theorem power_control_update_switch_calls_filter (K : header_constants)
    (env : environment) (pc : power_control_t) :
    (power_control_update_switch K env pc).calls.filter is_power_sequencing_call =
      (power_control_update_switch K env pc).calls := by
  unfold power_control_update_switch
  cases pc.power_state <;> simp only <;> split_ifs <;> simp [is_power_sequencing_call]

/-- The power sequencing calls of a tick are the calls of its `switch`
statement. -/
theorem power_control_update_calls_filter (K : header_constants)
    (env : environment) (pc : power_control_t) :
    (power_control_update K env pc).calls.filter is_power_sequencing_call =
      (power_control_update_switch K env (power_control_sampled env pc)).calls := by
  rw [power_control_update_eq]
  simp only [power_control_update_rest]
  split_ifs
  · simp [is_power_sequencing_call, power_control_update_switch_calls_filter]
  · simp [is_power_sequencing_call, power_control_update_switch_calls_filter,
      power_control_update_charger_calls_filter, power_control_update_tx_calls_filter]

theorem countP_shutdown_eq (l : List call) :
    l.countP is_shutdown_command =
      (l.filter is_power_sequencing_call).countP is_shutdown_command := by
  induction l with
  | nil => rfl
  | cons c l ih =>
    cases c <;> simp [List.filter_cons, List.countP_cons, is_power_sequencing_call,
      is_shutdown_command, ih]

theorem countP_watchdog_disable_eq (K : header_constants) (l : List call) :
    l.countP (is_watchdog_disable_command K) =
      (l.filter is_power_sequencing_call).countP (is_watchdog_disable_command K) := by
  induction l with
  | nil => rfl
  | cons c l ih =>
    cases c <;> simp [List.filter_cons, List.countP_cons, is_power_sequencing_call,
      is_watchdog_disable_command, ih]

/-! ## The state machine of the periodic task -/

/-- C1: in every power state, a tick after whose switch sample the debounced
switch value is TRUE ends in state ON (and runs to its end; the switch filter
of the controller is then the filter that was fed the sample). -/
theorem switch_true_returns_to_on (K : header_constants) (env : environment)
    (pc : power_control_t)
    (h : debounce_bool_get_value (switch_debounce_after env pc) = .DEBOUNCE_TRUE) :
    (power_control_update K env pc).power_control.power_state = .POWER_STATE_ON ∧
    (power_control_update K env pc).aborted = false ∧
    (power_control_update K env pc).power_control.power_switch_debounce =
      switch_debounce_after env pc := by
  have hsw : (power_control_update_switch K env
        (power_control_sampled env pc)).power_control.power_state = .POWER_STATE_ON ∧
      (power_control_update_switch K env (power_control_sampled env pc)).aborted = false := by
    unfold power_control_update_switch
    cases hs : pc.power_state <;> simp [power_control_sampled, hs, h]
  refine ⟨?_, ?_, ?_⟩
  · rw [power_control_update_power_state]; exact hsw.1
  · rw [power_control_update_aborted]; exact hsw.2
  · obtain ⟨cfg, hcfg⟩ := power_control_update_rest_power_control K env
      (power_control_update_switch K env (power_control_sampled env pc))
    rw [power_control_update_eq, hcfg]
    simp only [power_control_update_switch_power_switch_debounce]
    rfl

/-- Witness of C1: the controller in HARD_OFF with a switch filter of
threshold 1 reads the switch high. -/
theorem switch_true_returns_to_on_witness :
    (power_control_update sample_constants (sample_env 1 0)
      { sample_power_control with
          power_state := .POWER_STATE_HARD_OFF
          power_switch_debounce := debounce_bool_init 1 }).power_control.power_state
      = .POWER_STATE_ON :=
  (switch_true_returns_to_on sample_constants (sample_env 1 0)
    { sample_power_control with
        power_state := .POWER_STATE_HARD_OFF
        power_switch_debounce := debounce_bool_init 1 } (by decide)).1

/-- C2: in state ON a tick moves to SOFT_OFF exactly when the debounced
switch value is FALSE, and then the power-good filter is reset; when the
value is TRUE or UNKNOWN the state stays ON and the power-good filter is
left as it was.  The tick runs to its end in both cases. -/
theorem on_leaves_exactly_when_switch_false (K : header_constants)
    (env : environment) (pc : power_control_t)
    (hon : pc.power_state = .POWER_STATE_ON) :
    ((power_control_update K env pc).power_control.power_state = .POWER_STATE_SOFT_OFF ↔
      debounce_bool_get_value (switch_debounce_after env pc) = .DEBOUNCE_FALSE) ∧
    (debounce_bool_get_value (switch_debounce_after env pc) = .DEBOUNCE_FALSE →
      (power_control_update K env pc).power_control.power_good_debounce =
        debounce_bool_reset pc.power_good_debounce) ∧
    (debounce_bool_get_value (switch_debounce_after env pc) = .DEBOUNCE_TRUE ∨
        debounce_bool_get_value (switch_debounce_after env pc) = .DEBOUNCE_UNKNOWN →
      (power_control_update K env pc).power_control.power_state = .POWER_STATE_ON ∧
      (power_control_update K env pc).power_control.power_good_debounce =
        pc.power_good_debounce) ∧
    (power_control_update K env pc).aborted = false := by
  rw [power_control_update_power_state, power_control_update_power_good_debounce,
    power_control_update_aborted]
  unfold power_control_update_switch
  simp only [power_control_sampled, hon]
  split_ifs with h
  · simp [h]
  · refine ⟨by simp [h], fun h1 => absurd h1 h, fun _ => ⟨rfl, rfl⟩, rfl⟩

/-- Witness of C2: the initialised controller, in ON, reads the switch low
for the first time. -/
theorem on_leaves_exactly_when_switch_false_witness :
    (power_control_update sample_constants (sample_env 0 0)
        sample_power_control).power_control.power_state = .POWER_STATE_ON ∧
    (power_control_update sample_constants (sample_env 0 0)
        sample_power_control).power_control.power_good_debounce =
      sample_power_control.power_good_debounce :=
  (on_leaves_exactly_when_switch_false sample_constants (sample_env 0 0)
    sample_power_control (by decide)).2.2.1 (Or.inr (by decide))

/-- Counterexample to C3 as stated: in SOFT_OFF with the switch debounced to
FALSE, a successful power-good query whose sample changes the power-good
value to FALSE, and a charger that refuses the watchdog command, the tick
issues the watchdog-disable command, aborts, never issues the shutdown
command and does not reach HARD_OFF. -/
theorem hard_off_commands_counterexample :
    sample_soft_off.power_state = .POWER_STATE_SOFT_OFF ∧
    debounce_bool_get_value
      (switch_debounce_after (sample_env_watchdog_fails 0) sample_soft_off) = .DEBOUNCE_FALSE ∧
    (sample_env_watchdog_fails 0).charger_status
      (.bq24295_is_power_good sample_soft_off.charger) = ESP_OK ∧
    (debounce_bool_update sample_soft_off.power_good_debounce
      (sample_env_watchdog_fails 0).power_good).1 = true ∧
    debounce_bool_get_value (debounce_bool_update sample_soft_off.power_good_debounce
      (sample_env_watchdog_fails 0).power_good).2 = .DEBOUNCE_FALSE ∧
    (power_control_update sample_constants (sample_env_watchdog_fails 0)
      sample_soft_off).calls.countP (is_watchdog_disable_command sample_constants) = 1 ∧
    (power_control_update sample_constants (sample_env_watchdog_fails 0)
      sample_soft_off).calls.countP is_shutdown_command = 0 ∧
    (power_control_update sample_constants (sample_env_watchdog_fails 0)
      sample_soft_off).power_control.power_state = .POWER_STATE_SOFT_OFF ∧
    (power_control_update sample_constants (sample_env_watchdog_fails 0)
      sample_soft_off).aborted = true := by
  decide

/-- C3 (amended): in SOFT_OFF with the switch debounced to FALSE, when the
power-good query succeeds and its sample changes the power-good value to
FALSE, the tick issues the watchdog-disable command exactly once; when the
charger accepts that command the tick then issues the shutdown command,
exactly once, and when the charger accepts the shutdown command as well the
tick runs to its end in HARD_OFF.  No tick that starts in HARD_OFF issues
either command. -/
theorem soft_off_to_hard_off_commands (K : header_constants) (env : environment)
    (pc : power_control_t)
    (hs : pc.power_state = .POWER_STATE_SOFT_OFF)
    (hsw : debounce_bool_get_value (switch_debounce_after env pc) = .DEBOUNCE_FALSE)
    (hq : env.charger_status (.bq24295_is_power_good pc.charger) = ESP_OK)
    (hchg : (debounce_bool_update pc.power_good_debounce env.power_good).1 = true)
    (hval : debounce_bool_get_value
      (debounce_bool_update pc.power_good_debounce env.power_good).2 = .DEBOUNCE_FALSE) :
    (power_control_update K env pc).calls.countP (is_watchdog_disable_command K) = 1 ∧
    (env.charger_status
        (.bq24295_set_watchdog_timeout pc.charger K.BQ24295_WATCHDOG_TIMEOUT_DISABLED) = ESP_OK →
      (power_control_update K env pc).calls.filter is_power_sequencing_call =
        [.bq24295_is_power_good pc.charger,
         .bq24295_set_watchdog_timeout pc.charger K.BQ24295_WATCHDOG_TIMEOUT_DISABLED,
         .bq24295_set_shutdown pc.charger true] ∧
      (power_control_update K env pc).calls.countP is_shutdown_command = 1 ∧
      (env.charger_status (.bq24295_set_shutdown pc.charger true) = ESP_OK →
        (power_control_update K env pc).power_control.power_state = .POWER_STATE_HARD_OFF ∧
        (power_control_update K env pc).aborted = false)) ∧
    (∀ (env2 : environment) (pc2 : power_control_t),
      pc2.power_state = .POWER_STATE_HARD_OFF →
      (power_control_update K env2 pc2).calls.countP (is_watchdog_disable_command K) = 0 ∧
      (power_control_update K env2 pc2).calls.countP is_shutdown_command = 0 ∧
      (power_control_update K env2 pc2).aborted = false) := by
  simp only [ESP_OK] at hq
  refine ⟨?_, ?_, ?_⟩
  · rw [countP_watchdog_disable_eq, power_control_update_calls_filter]
    unfold power_control_update_switch
    simp only [power_control_sampled, hs, hsw, hq, hchg, hval, ESP_OK]
    simp only [reduceCtorEq, if_false, ne_eq, not_true_eq_false, decide_True, Bool.and_self,
      if_true]
    split_ifs <;> simp [is_watchdog_disable_command]
  · intro hwd
    simp only [ESP_OK] at hwd
    have hcalls : (power_control_update_switch K env (power_control_sampled env pc)).calls =
        [.bq24295_is_power_good pc.charger,
         .bq24295_set_watchdog_timeout pc.charger K.BQ24295_WATCHDOG_TIMEOUT_DISABLED,
         .bq24295_set_shutdown pc.charger true] := by
      unfold power_control_update_switch
      simp only [power_control_sampled, hs, hsw, hq, hchg, hval, hwd, ESP_OK]
      simp
      split_ifs <;> rfl
    refine ⟨?_, ?_, ?_⟩
    · rw [power_control_update_calls_filter, hcalls]
    · rw [countP_shutdown_eq, power_control_update_calls_filter, hcalls]
      simp [is_shutdown_command]
    · intro hsd
      simp only [ESP_OK] at hsd
      rw [power_control_update_power_state, power_control_update_aborted]
      unfold power_control_update_switch
      simp only [power_control_sampled, hs, hsw, hq, hchg, hval, hwd, hsd, ESP_OK]
      simp
  · intro env2 pc2 h2
    have hc2 : (power_control_update_switch K env2 (power_control_sampled env2 pc2)).calls = [] ∧
        (power_control_update_switch K env2 (power_control_sampled env2 pc2)).aborted = false := by
      unfold power_control_update_switch
      simp only [power_control_sampled, h2]
      split_ifs <;> exact ⟨rfl, rfl⟩
    rw [countP_watchdog_disable_eq, countP_shutdown_eq, power_control_update_calls_filter,
      power_control_update_aborted, hc2.1, hc2.2]
    simp

/-- Witness of C3 (amended): the fifth tick without power in SOFT_OFF, with a
charger that accepts every command, ends in HARD_OFF. -/
theorem soft_off_to_hard_off_commands_witness :
    (power_control_update sample_constants (sample_env 0 0)
      sample_soft_off).power_control.power_state = .POWER_STATE_HARD_OFF ∧
    (power_control_update sample_constants (sample_env 0 0) sample_soft_off).aborted = false :=
  ((soft_off_to_hard_off_commands sample_constants (sample_env 0 0) sample_soft_off
    (by decide) (by decide) (by decide) (by decide) (by decide)).2.1 (by decide)).2.2
    (by decide)

/-! ## Debounced release of the switch -/

theorem low_run_low_sample (N k : Nat) (d : debounce_bool_t) (h : low_run N d k)
    (hk : k + 1 < N) : low_run N (debounce_bool_update d false).2 (k + 1) := by
  obtain ⟨hN, hst, hacc⟩ := h
  have hcount : (if false = d.accumulating_value then d.matching_count + 1 else 1) = k + 1 := by
    by_cases hk0 : k = 0
    · subst hk0
      simp only [if_true] at hacc
      rcases hacc with ha | hc
      · simp [ha]
      · simp [hc]
    · simp only [hk0, if_false] at hacc
      simp [hacc.1, hacc.2]
  simp only [debounce_bool_update, hcount, hN]
  rw [if_neg (by omega)]
  exact ⟨rfl, hst, by simp⟩

theorem low_run_last_low_sample (N k : Nat) (d : debounce_bool_t) (h : low_run N d k)
    (hk : k + 1 = N) :
    debounce_bool_get_value (debounce_bool_update d false).2 = .DEBOUNCE_FALSE := by
  obtain ⟨hN, hst, hacc⟩ := h
  have hcount : (if false = d.accumulating_value then d.matching_count + 1 else 1) = k + 1 := by
    by_cases hk0 : k = 0
    · subst hk0
      simp only [if_true] at hacc
      rcases hacc with ha | hc
      · simp [ha]
      · simp [hc]
    · simp only [hk0, if_false] at hacc
      simp [hacc.1, hacc.2]
  simp only [debounce_bool_update, hcount, hN]
  rw [if_pos (by omega)]
  rfl

theorem low_run_high_sample (N k : Nat) (d : debounce_bool_t) (h : low_run N d k) :
    debounce_bool_get_value (debounce_bool_update d true).2 = .DEBOUNCE_TRUE := by
  obtain ⟨hN, hst, hacc⟩ := h
  simp only [debounce_bool_update]
  split_ifs <;> simp [debounce_bool_get_value, debounce_value_of_bool, hst]

/-- One tick in state ON. -/
theorem power_control_update_on (K : header_constants) (env : environment)
    (pc : power_control_t) (hon : pc.power_state = .POWER_STATE_ON) :
    (power_control_update K env pc).aborted = false ∧
    (power_control_update K env pc).power_control.power_switch_debounce =
      switch_debounce_after env pc ∧
    (power_control_update K env pc).power_control.ignore_power_switch =
      pc.ignore_power_switch ∧
    (power_control_update K env pc).power_control.power_state =
      if debounce_bool_get_value (switch_debounce_after env pc) = .DEBOUNCE_FALSE
      then .POWER_STATE_SOFT_OFF else .POWER_STATE_ON := by
  obtain ⟨cfg, hcfg⟩ := power_control_update_rest_power_control K env
    (power_control_update_switch K env (power_control_sampled env pc))
  rw [power_control_update_aborted, power_control_update_eq, hcfg]
  unfold power_control_update_switch
  simp only [power_control_sampled, hon]
  split_ifs <;> exact ⟨rfl, rfl, rfl, rfl⟩

/-- The sample of a tick that reads the switch with the ignore flag clear. -/
theorem switch_debounce_after_eq (env : environment) (pc : power_control_t)
    (hig : pc.ignore_power_switch = false) :
    switch_debounce_after env pc =
      (debounce_bool_update pc.power_switch_debounce (env.gpio_level != 0)).2 := by
  simp [switch_debounce_after, hig]

theorem run_ticks_cons (K : header_constants) (env : environment)
    (envs : List environment) (pc : power_control_t)
    (h : (power_control_update K env pc).aborted = false) :
    run_ticks K (env :: envs) pc =
      power_control_update K env pc ::
        run_ticks K envs (power_control_update K env pc).power_control := by
  rw [run_ticks]
  simp [h]

/-- A run of low samples that stays below the threshold, followed by a high
sample, keeps the controller in ON on every tick. -/
theorem run_ticks_short_low_run (K : header_constants) (N : Nat) (high : environment)
    (hhigh : high.gpio_level ≠ 0) (lows : List environment) :
    ∀ (k : Nat) (pc : power_control_t), pc.power_state = .POWER_STATE_ON →
      pc.ignore_power_switch = false → low_run N pc.power_switch_debounce k →
      (∀ e ∈ lows, e.gpio_level = 0) → k + lows.length < N →
      (run_ticks K (lows ++ [high]) pc).length = lows.length + 1 ∧
      ∀ r ∈ run_ticks K (lows ++ [high]) pc,
        r.power_control.power_state = .POWER_STATE_ON ∧ r.aborted = false := by
  induction lows with
  | nil =>
    intro k pc hon hig hrun _ _
    obtain ⟨hab, _, _, hst⟩ := power_control_update_on K high pc hon
    have hval := low_run_high_sample N k _ hrun
    rw [switch_debounce_after_eq high pc hig] at hst
    have hs : (high.gpio_level != 0) = true := by simpa using hhigh
    rw [hs, hval] at hst
    rw [List.nil_append, run_ticks_cons K high [] pc hab]
    simp [run_ticks, hst, hab]
  | cons e lows ih =>
    intro k pc hon hig hrun hlow hlen
    obtain ⟨hab, hsw, hig1, hst⟩ := power_control_update_on K e pc hon
    have he : (e.gpio_level != 0) = false := by
      simp [hlow e (List.mem_cons_self _ _)]
    simp only [List.length_cons] at hlen
    have hrun1 := low_run_low_sample N k _ hrun (by omega)
    rw [switch_debounce_after_eq e pc hig, he] at hst hsw
    have hval : debounce_bool_get_value
        (debounce_bool_update pc.power_switch_debounce false).2 = .DEBOUNCE_TRUE := hrun1.2.1
    rw [hval] at hst
    simp only [if_false, reduceCtorEq] at hst
    have := ih (k + 1) (power_control_update K e pc).power_control hst (hig1.trans hig)
      (hsw ▸ hrun1) (fun e1 h1 => hlow e1 (List.mem_cons_of_mem _ h1)) (by omega)
    rw [List.cons_append, run_ticks_cons K e _ pc hab]
    simp only [List.length_cons, List.mem_cons]
    refine ⟨by omega, ?_⟩
    rintro r (rfl | hr)
    · exact ⟨hst, hab⟩
    · exact this.2 r hr

/-- A run of low samples that reaches the threshold on its last tick keeps
the controller in ON until that tick and moves it to SOFT_OFF on it. -/
theorem run_ticks_full_low_run (K : header_constants) (N : Nat) (last : environment)
    (hlast : last.gpio_level = 0) (lows : List environment) :
    ∀ (k : Nat) (pc : power_control_t), pc.power_state = .POWER_STATE_ON →
      pc.ignore_power_switch = false → low_run N pc.power_switch_debounce k →
      (∀ e ∈ lows, e.gpio_level = 0) → k + lows.length + 1 = N →
      (run_ticks K (lows ++ [last]) pc).map (fun r => r.power_control.power_state) =
        List.replicate lows.length .POWER_STATE_ON ++ [.POWER_STATE_SOFT_OFF] ∧
      ∀ r ∈ run_ticks K (lows ++ [last]) pc, r.aborted = false := by
  induction lows with
  | nil =>
    intro k pc hon hig hrun _ hlen
    obtain ⟨hab, _, _, hst⟩ := power_control_update_on K last pc hon
    have hs : (last.gpio_level != 0) = false := by simp [hlast]
    rw [switch_debounce_after_eq last pc hig, hs,
      low_run_last_low_sample N k _ hrun (by simpa using hlen)] at hst
    rw [List.nil_append, run_ticks_cons K last [] pc hab]
    simp [run_ticks, hst, hab]
  | cons e lows ih =>
    intro k pc hon hig hrun hlow hlen
    obtain ⟨hab, hsw, hig1, hst⟩ := power_control_update_on K e pc hon
    have he : (e.gpio_level != 0) = false := by
      simp [hlow e (List.mem_cons_self _ _)]
    simp only [List.length_cons] at hlen
    have hrun1 := low_run_low_sample N k _ hrun (by omega)
    rw [switch_debounce_after_eq e pc hig, he] at hst hsw
    have hval : debounce_bool_get_value
        (debounce_bool_update pc.power_switch_debounce false).2 = .DEBOUNCE_TRUE := hrun1.2.1
    rw [hval] at hst
    simp only [if_false, reduceCtorEq] at hst
    have := ih (k + 1) (power_control_update K e pc).power_control hst (hig1.trans hig)
      (hsw ▸ hrun1) (fun e1 h1 => hlow e1 (List.mem_cons_of_mem _ h1)) (by omega)
    rw [List.cons_append, run_ticks_cons K e _ pc hab]
    simp only [List.map_cons, List.length_cons, List.replicate_succ, List.cons_append,
      List.mem_cons, hst, this.1, true_and]
    rintro r (rfl | hr)
    · exact hab
    · exact this.2 r hr

/-- C4: with the debounce filter of section 4.1 of the specification, the
switch threshold 3 of `power_control_init`, the ignore flag clear and the
controller in ON with the switch debounced to TRUE and no low sample
accumulated yet: of three consecutive ticks that read the switch low the
first two end in ON and the third ends in SOFT_OFF; fewer than three low
ticks followed by a high tick all end in ON.  Every tick runs to its end.
A successful `power_control_init` sets up the switch filter with threshold 3
and no history. -/
theorem switch_release_debounced (K : header_constants) (pc : power_control_t)
    (hon : pc.power_state = .POWER_STATE_ON)
    (hig : pc.ignore_power_switch = false)
    (hN : pc.power_switch_debounce.required_consecutive_samples = 3)
    (hval : debounce_bool_get_value pc.power_switch_debounce = .DEBOUNCE_TRUE)
    (hrun : pc.power_switch_debounce.accumulating_value = true ∨
      pc.power_switch_debounce.matching_count = 0) :
    (∀ envs : List environment, envs.length = 3 → (∀ e ∈ envs, e.gpio_level = 0) →
      (run_ticks K envs pc).map (fun r => r.power_control.power_state) =
        [.POWER_STATE_ON, .POWER_STATE_ON, .POWER_STATE_SOFT_OFF] ∧
      ∀ r ∈ run_ticks K envs pc, r.aborted = false) ∧
    (∀ (lows : List environment) (high : environment), lows.length < 3 →
      (∀ e ∈ lows, e.gpio_level = 0) → high.gpio_level ≠ 0 →
      (run_ticks K (lows ++ [high]) pc).length = lows.length + 1 ∧
      ∀ r ∈ run_ticks K (lows ++ [high]) pc,
        r.power_control.power_state = .POWER_STATE_ON ∧ r.aborted = false) ∧
    (∀ (env : environment) (charger : Nat) (pc0 : power_control_t),
      (∀ c ∈ power_control_init_charger_calls K charger, env.charger_status c = ESP_OK) →
      (power_control_init K env charger pc0).2.power_control.power_switch_debounce =
        debounce_bool_init 3) := by
  have h0 : low_run 3 pc.power_switch_debounce 0 := ⟨hN, hval, by simpa using hrun⟩
  refine ⟨?_, ?_, ?_⟩
  · intro envs hlen hlow
    obtain ⟨e1, e2, e3, rfl⟩ := List.length_eq_three.mp hlen
    have := run_ticks_full_low_run K 3 e3 (hlow e3 (by simp)) [e1, e2] 0 pc hon hig h0
      (fun e he => hlow e (by
        simp only [List.mem_cons, List.mem_singleton, List.not_mem_nil, or_false] at he ⊢
        tauto)) rfl
    simpa using this
  · intro lows high hlen hlow hhigh
    exact run_ticks_short_low_run K 3 high hhigh lows 0 pc hon hig h0 hlow (by omega)
  · intro env charger pc0 hok
    simp only [power_control_init_charger_calls, List.mem_cons, List.mem_singleton,
      List.not_mem_nil, or_false, forall_eq_or_imp, forall_eq, ESP_OK] at hok
    obtain ⟨h1, h2, h3, h4, h5, h6, h7, h8, h9⟩ := hok
    simp [power_control_init, h1, h2, h3, h4, h5, h6, h7, h8, h9]

/-- Witness of C4: the controller after `power_control_init` and three ticks
that read the switch high, then three ticks that read it low. -/
theorem switch_release_debounced_witness :
    (run_ticks sample_constants [sample_env 0 750000, sample_env 0 1000000,
        sample_env 0 1250000] sample_on_pressed).map
      (fun r => r.power_control.power_state) =
      [.POWER_STATE_ON, .POWER_STATE_ON, .POWER_STATE_SOFT_OFF] :=
  ((switch_release_debounced sample_constants sample_on_pressed (by decide) (by decide)
    (by decide) (by decide) (by decide)).1
    [sample_env 0 750000, sample_env 0 1000000, sample_env 0 1250000] rfl
    (by decide)).1

/-! ## Charger maintenance -/

set_option maxRecDepth 20000 in
/-- C5 (code at the failing input): no tick stores the time of the charger
maintenance, `timestamp_charger_watchdog_reset` keeps its value; so two ticks
250 ms apart, 10 s after boot, both read the input current limit and reset
the charger watchdog. -/
theorem charger_maintenance_repeats :
    (∀ (K : header_constants) (env : environment) (pc : power_control_t),
      (power_control_update K env pc).power_control.timestamp_charger_watchdog_reset =
        pc.timestamp_charger_watchdog_reset) ∧
    (power_control_update sample_constants (sample_env 1 10000000)
      sample_on_pressed).calls.filter is_maintenance_call =
      [.bq24295_get_input_current_limit 1, .bq24295_watchdog_reset 1] ∧
    (power_control_update sample_constants (sample_env 1 10250000)
      (power_control_update sample_constants (sample_env 1 10000000)
        sample_on_pressed).power_control).calls.filter is_maintenance_call =
      [.bq24295_get_input_current_limit 1, .bq24295_watchdog_reset 1] := by
  refine ⟨?_, by decide, by decide⟩
  intro K env pc
  obtain ⟨cfg, hcfg⟩ := power_control_update_rest_power_control K env
    (power_control_update_switch K env (power_control_sampled env pc))
  rw [power_control_update_eq, hcfg]
  unfold power_control_update_switch
  cases hs : pc.power_state <;> simp only [power_control_sampled, hs] <;> split_ifs <;> rfl

/-! ## Receiving and sending configuration packets -/

/-- The test `!!(flags & FLAG_IGNORE_POWER_SWITCH)` reads bit 0. -/
theorem flag_test_eq_testBit (x : Nat) :
    ((x &&& FLAG_IGNORE_POWER_SWITCH) != 0) = x.testBit 0 := by
  simp only [FLAG_IGNORE_POWER_SWITCH, BIT, Nat.shiftLeft_zero, Nat.and_one_is_mod,
    Nat.testBit_zero]
  rcases Nat.mod_two_eq_zero_or_one x with h | h <;> simp [h]

/-- C6: a packet shorter than `power_control_packet_t` is dropped:
`shared_config_update_remote` is not called (no external call is made at
all) and the controller is unchanged. -/
theorem power_control_rx_short_packet (K : header_constants) (packet : wireless_packet_t)
    (pc : power_control_t) (hlen : packet.len < sizeof_power_control_packet_t K) :
    (power_control_rx K packet pc).power_control = pc ∧
    (power_control_rx K packet pc).calls = [] ∧
    (power_control_rx K packet pc).aborted = false := by
  simp [power_control_rx, hlen]

/-- Witness of C6: a packet one byte shorter than the ten bytes of the sample
packet size, with the ignore flag set and a newer header. -/
theorem power_control_rx_short_packet_witness :
    (power_control_rx sample_constants
      { len := 9, data := [7, 1, 5, 0, 0, 0, 0, 0, 0] } sample_on_pressed).power_control =
      sample_on_pressed ∧
    (power_control_rx sample_constants
      { len := 9, data := [7, 1, 5, 0, 0, 0, 0, 0, 0] } sample_on_pressed).calls = [] ∧
    (power_control_rx sample_constants
      { len := 9, data := [7, 1, 5, 0, 0, 0, 0, 0, 0] } sample_on_pressed).aborted = false :=
  power_control_rx_short_packet sample_constants
    { len := 9, data := [7, 1, 5, 0, 0, 0, 0, 0, 0] } sample_on_pressed (by decide)

/-- C7: for a packet of at least the fixed size `power_control_rx` calls
`shared_config_update_remote` once, with the header of the packet.  When the
header is accepted the ignore flag becomes bit 0 of the flags byte, whatever
the other bits; when it is rejected the flag keeps its value.  Nothing but
the shared configuration entry and the flag changes. -/
theorem power_control_rx_adopts_flag (K : header_constants) (packet : wireless_packet_t)
    (pc : power_control_t) (hlen : sizeof_power_control_packet_t K ≤ packet.len) :
    (power_control_rx K packet pc).calls =
      [.shared_config_update_remote
        (power_control_packet_of_bytes K packet.data).shared_cfg_hdr] ∧
    ((shared_config_update_remote pc.shared_cfg
        (power_control_packet_of_bytes K packet.data).shared_cfg_hdr).1 = true →
      (power_control_rx K packet pc).power_control =
        { pc with
            shared_cfg := (shared_config_update_remote pc.shared_cfg
              (power_control_packet_of_bytes K packet.data).shared_cfg_hdr).2
            ignore_power_switch :=
              (power_control_packet_of_bytes K packet.data).flags.testBit 0 }) ∧
    ((shared_config_update_remote pc.shared_cfg
        (power_control_packet_of_bytes K packet.data).shared_cfg_hdr).1 = false →
      (power_control_rx K packet pc).power_control =
        { pc with
            shared_cfg := (shared_config_update_remote pc.shared_cfg
              (power_control_packet_of_bytes K packet.data).shared_cfg_hdr).2 } ∧
      (power_control_rx K packet pc).power_control.ignore_power_switch =
        pc.ignore_power_switch) := by
  have hnot : ¬ packet.len < sizeof_power_control_packet_t K := by omega
  simp only [power_control_rx, hnot, if_false, flag_test_eq_testBit]
  split_ifs with h <;> simp [h]

/-- Witness of C7: a packet of the sample size with flags byte `0xff` and a
newer header sets the flag. -/
theorem power_control_rx_adopts_flag_witness :
    (power_control_rx sample_constants
      { len := 10, data := [7, 255, 5, 0, 0, 0, 0, 0, 0, 0] }
      sample_on_pressed).power_control.ignore_power_switch = true :=
  congrArg power_control_t.ignore_power_switch
    ((power_control_rx_adopts_flag sample_constants
      { len := 10, data := [7, 255, 5, 0, 0, 0, 0, 0, 0, 0] } sample_on_pressed
      (by decide)).2.1 (by decide))

theorem shared_config_hdr_bytes_length (K : header_constants) (hdr : shared_config_hdr_t) :
    (shared_config_hdr_bytes K hdr).length = K.sizeof_shared_config_hdr_t := by
  simp [shared_config_hdr_bytes]

/-- Little endian bytes hold a number up to the width of the encoding. -/
theorem shared_config_hdr_of_bytes_range (n : Nat) :
    ∀ hdr : Nat, shared_config_hdr_of_bytes
      ((List.range n).map (fun i => hdr / 256 ^ i % 256)) = hdr % 256 ^ n := by
  induction n with
  | zero => intro hdr; simp [shared_config_hdr_of_bytes, Nat.mod_one]
  | succ n ih =>
    intro hdr
    have ih1 := ih (hdr / 256)
    simp only [shared_config_hdr_of_bytes] at ih1 ⊢
    rw [List.range_succ_eq_map, List.map_cons, List.map_map, List.foldr_cons]
    have hfun : ((fun i => hdr / 256 ^ i % 256) ∘ Nat.succ) =
        (fun i => hdr / 256 / 256 ^ i % 256) := by
      funext i
      simp only [Function.comp, Nat.succ_eq_add_one, Nat.pow_succ, Nat.div_div_eq_div_mul]
      rw [Nat.mul_comm]
    rw [hfun, ih1, pow_succ', Nat.mod_mul]
    simp

theorem shared_config_hdr_of_bytes_bytes (K : header_constants) (hdr : shared_config_hdr_t)
    (h : hdr < 256 ^ K.sizeof_shared_config_hdr_t) :
    shared_config_hdr_of_bytes (shared_config_hdr_bytes K hdr) = hdr := by
  rw [shared_config_hdr_bytes, shared_config_hdr_of_bytes_range, Nat.mod_eq_of_lt h]

theorem read_bytes_tail (a b : Nat) (l : List Nat) :
    read_bytes (a :: b :: l) 2 l.length = l := by
  apply List.ext_getElem
  · simp [read_bytes]
  · intro i h1 h2
    simp only [read_bytes, List.getElem_map, List.getElem_range]
    rw [show 2 + i = i + 1 + 1 by omega]
    simp only [List.getD_cons_succ]
    rw [List.getD_eq_getElem _ _ h2]

/-- Copying the bytes of a packet back into a packet keeps the flags byte and
the header bytes. -/
theorem power_control_packet_of_bytes_bytes (K : header_constants)
    (packet : power_control_packet_t) :
    (power_control_packet_of_bytes K (power_control_packet_bytes K packet)).flags =
      packet.flags % 256 ∧
    (power_control_packet_of_bytes K (power_control_packet_bytes K packet)).shared_cfg_hdr =
      shared_config_hdr_of_bytes (shared_config_hdr_bytes K packet.shared_cfg_hdr) := by
  constructor
  · simp [power_control_packet_of_bytes, power_control_packet_bytes]
  · have := read_bytes_tail (packet.packet_type % 256) (packet.flags % 256)
      (shared_config_hdr_bytes K packet.shared_cfg_hdr)
    rw [shared_config_hdr_bytes_length] at this
    simp only [power_control_packet_of_bytes, power_control_packet_bytes, List.cons_append,
      List.nil_append, this]

/-- C8: the packet `power_control_tx` builds on an instance whose ignore flag
is `b` is broadcast, and `power_control_rx` on a second instance leaves that
instance's flag equal to `b` whenever `shared_config_update_remote` accepts
the header of the packet; it accepts when the second instance's freshness
header is strictly behind the first one's (which fits the header width). -/
theorem tx_rx_round_trip (K : header_constants) (env : environment) (b : Bool)
    (sender receiver : power_control_t) (hb : sender.ignore_power_switch = b) :
    (power_control_tx K env sender).calls.filter is_broadcast =
      [.wireless_broadcast (power_control_packet_bytes K (power_control_tx_packet K sender))] ∧
    ((shared_config_update_remote receiver.shared_cfg
        (power_control_packet_of_bytes K
          (power_control_packet_bytes K (power_control_tx_packet K sender))).shared_cfg_hdr).1
        = true →
      (power_control_rx K
        (received_packet (power_control_packet_bytes K (power_control_tx_packet K sender)))
        receiver).power_control.ignore_power_switch = b) ∧
    (receiver.shared_cfg.freshness_header < sender.shared_cfg.freshness_header →
      sender.shared_cfg.freshness_header < 256 ^ K.sizeof_shared_config_hdr_t →
      (shared_config_update_remote receiver.shared_cfg
        (power_control_packet_of_bytes K
          (power_control_packet_bytes K (power_control_tx_packet K sender))).shared_cfg_hdr).1
        = true ∧
      (power_control_rx K
        (received_packet (power_control_packet_bytes K (power_control_tx_packet K sender)))
        receiver).power_control.ignore_power_switch = b) := by
  have hlen : sizeof_power_control_packet_t K ≤
      (received_packet (power_control_packet_bytes K (power_control_tx_packet K sender))).len := by
    simp only [received_packet, power_control_packet_bytes, List.length_append,
      shared_config_hdr_bytes_length, sizeof_power_control_packet_t, List.length_cons,
      List.length_nil]
    omega
  have hflag : (power_control_packet_of_bytes K
      (power_control_packet_bytes K (power_control_tx_packet K sender))).flags.testBit 0 = b := by
    rw [(power_control_packet_of_bytes_bytes K _).1]
    cases b <;> simp [power_control_tx_packet, hb, FLAG_IGNORE_POWER_SWITCH, BIT]
  have hacc : (shared_config_update_remote receiver.shared_cfg
        (power_control_packet_of_bytes K
          (power_control_packet_bytes K (power_control_tx_packet K sender))).shared_cfg_hdr).1
        = true →
      (power_control_rx K
        (received_packet (power_control_packet_bytes K (power_control_tx_packet K sender)))
        receiver).power_control.ignore_power_switch = b := by
    intro h
    have hnot : ¬ (received_packet (power_control_packet_bytes K
        (power_control_tx_packet K sender))).len < sizeof_power_control_packet_t K := by omega
    have hd : (received_packet (power_control_packet_bytes K
        (power_control_tx_packet K sender))).data =
          power_control_packet_bytes K (power_control_tx_packet K sender) := rfl
    simp only [power_control_rx, hnot, if_false, hd, h, if_true, flag_test_eq_testBit, hflag]
  refine ⟨by simp [power_control_tx, is_broadcast], hacc, ?_⟩
  intro hlt hfit
  have hh : (shared_config_update_remote receiver.shared_cfg
        (power_control_packet_of_bytes K
          (power_control_packet_bytes K (power_control_tx_packet K sender))).shared_cfg_hdr).1
        = true := by
    rw [(power_control_packet_of_bytes_bytes K _).2]
    simp only [power_control_tx_packet, shared_config_hdr_init]
    rw [shared_config_hdr_of_bytes_bytes K _ hfit]
    simp [shared_config_update_remote, hlt]
  exact ⟨hh, hacc hh⟩

/-- Witness of C8: a sender with the flag set and freshness header 5, a
receiver with the flag clear and freshness header 0. -/
theorem tx_rx_round_trip_witness :
    (power_control_rx sample_constants
      (received_packet (power_control_packet_bytes sample_constants
        (power_control_tx_packet sample_constants
          { sample_on_pressed with
              ignore_power_switch := true
              shared_cfg := { freshness_header := 5, tx_deadline := 0, tx_budget := 0 } })))
      sample_on_pressed).power_control.ignore_power_switch = true :=
  ((tx_rx_round_trip sample_constants (sample_env 1 0) true
    { sample_on_pressed with
        ignore_power_switch := true
        shared_cfg := { freshness_header := 5, tx_deadline := 0, tx_budget := 0 } }
    sample_on_pressed rfl).2.2 (by decide) (by decide)).2

/-! ## Changing the ignore flag locally -/

/-- The broadcast loop of `config_changed` changes the shared configuration
entry only and does not call `shared_config_update_local`. -/
theorem config_changed_loop_spec (K : header_constants) (env : environment) (n : Nat) :
    ∀ pc : power_control_t,
      (∃ cfg, (config_changed_loop K env n pc).power_control = { pc with shared_cfg := cfg }) ∧
      call.shared_config_update_local ∉ (config_changed_loop K env n pc).calls := by
  induction n with
  | zero => intro pc; exact ⟨⟨pc.shared_cfg, rfl⟩, by simp [config_changed_loop]⟩
  | succ n ih =>
    intro pc
    obtain ⟨⟨cfg, hcfg⟩, hnot⟩ := ih (power_control_tx K env pc).power_control
    refine ⟨⟨cfg, ?_⟩, ?_⟩
    · simp only [config_changed_loop, hcfg]
      rfl
    · simp only [config_changed_loop, List.mem_append, not_or]
      exact ⟨by simp [power_control_tx], hnot⟩

/-- C9: `power_control_set_ignore_power_switch v` with `v` different from the
flag sets the flag to `v` and calls `shared_config_update_local` exactly
once, as its first external call, so before every broadcast; with `v` equal
to the flag it changes nothing and makes no external call (no local update,
no broadcast). -/
theorem set_ignore_power_switch_effect (K : header_constants) (env : environment)
    (v : Bool) (pc : power_control_t) :
    (v ≠ pc.ignore_power_switch →
      (power_control_set_ignore_power_switch K env v pc).power_control.ignore_power_switch = v ∧
      (∃ rest, (power_control_set_ignore_power_switch K env v pc).calls =
          .shared_config_update_local :: rest ∧
        call.shared_config_update_local ∉ rest) ∧
      (power_control_set_ignore_power_switch K env v pc).calls.count
        .shared_config_update_local = 1) ∧
    (v = pc.ignore_power_switch →
      (power_control_set_ignore_power_switch K env v pc).power_control = pc ∧
      (power_control_set_ignore_power_switch K env v pc).calls = []) := by
  constructor
  · intro hne
    obtain ⟨⟨cfg, hcfg⟩, hnot⟩ := config_changed_loop_spec K env K.SHARED_CONFIG_TX_TIMES
      { pc with
          ignore_power_switch := v
          shared_cfg := shared_config_update_local K env.esp_timer pc.shared_cfg }
    simp only [power_control_set_ignore_power_switch, hne, ne_eq, not_false_eq_true, if_true,
      config_changed]
    refine ⟨by rw [hcfg], ⟨_, rfl, hnot⟩, ?_⟩
    rw [List.count_cons_self, List.count_eq_zero_of_not_mem hnot]
  · intro heq
    simp [power_control_set_ignore_power_switch, heq]

/-- Witness of C9: setting the clear flag of the sample controller. -/
theorem set_ignore_power_switch_effect_witness :
    (power_control_set_ignore_power_switch sample_constants (sample_env 1 0) true
      sample_on_pressed).power_control.ignore_power_switch = true ∧
    (power_control_set_ignore_power_switch sample_constants (sample_env 1 0) false
      sample_on_pressed).calls = [] :=
  ⟨((set_ignore_power_switch_effect sample_constants (sample_env 1 0) true
      sample_on_pressed).1 (by decide)).1,
   ((set_ignore_power_switch_effect sample_constants (sample_env 1 0) false
      sample_on_pressed).2 (by decide)).2⟩

/-! ## Initialisation -/

/-- C10: `power_control_init` returns `ESP_OK` exactly when all nine charger
calls succeed.  When the call at position `i` is the first to fail, it
returns that call's status, the charger calls made are the first `i + 1` of
the nine (none later, none twice), no scheduler call is made, and the
controller is left as it was. -/
theorem power_control_init_status (K : header_constants) (env : environment)
    (charger : Nat) (pc : power_control_t) :
    ((power_control_init K env charger pc).1 = ESP_OK ↔
      ∀ c ∈ power_control_init_charger_calls K charger, env.charger_status c = ESP_OK) ∧
    (∀ (i : Nat) (c : call), (power_control_init_charger_calls K charger)[i]? = some c →
      (∀ d ∈ (power_control_init_charger_calls K charger).take i,
        env.charger_status d = ESP_OK) →
      env.charger_status c ≠ ESP_OK →
      (power_control_init K env charger pc).1 = env.charger_status c ∧
      (power_control_init K env charger pc).2.calls.filter is_charger_call =
        (power_control_init_charger_calls K charger).take (i + 1) ∧
      (power_control_init K env charger pc).2.calls.filter is_schedule_call = [] ∧
      (power_control_init K env charger pc).2.power_control = pc ∧
      (power_control_init K env charger pc).2.aborted = false) ∧
    (power_control_init_charger_calls K charger).Nodup := by
  refine ⟨?_, ?_, ?_⟩
  · simp only [power_control_init_charger_calls, List.mem_cons, List.mem_singleton,
      List.not_mem_nil, or_false, forall_eq_or_imp, forall_eq, ESP_OK]
    by_cases h1 : env.charger_status (.bq24295_set_shutdown charger false) = 0
    swap
    · simp [power_control_init, h1]
    by_cases h2 : env.charger_status (.bq24295_reset charger) = 0
    swap
    · simp [power_control_init, h1, h2]
    by_cases h3 : env.charger_status (.bq24295_set_min_system_voltage charger 3000) = 0
    swap
    · simp [power_control_init, h1, h2, h3]
    by_cases h4 : env.charger_status (.bq24295_set_boost_voltage charger 4550) = 0
    swap
    · simp [power_control_init, h1, h2, h3, h4]
    by_cases h5 : env.charger_status (.bq24295_set_input_current_limit charger 1500) = 0
    swap
    · simp [power_control_init, h1, h2, h3, h4, h5]
    by_cases h6 : env.charger_status (.bq24295_set_charge_current charger 1024) = 0
    swap
    · simp [power_control_init, h1, h2, h3, h4, h5, h6]
    by_cases h7 : env.charger_status (.bq24295_set_termination_current charger 128) = 0
    swap
    · simp [power_control_init, h1, h2, h3, h4, h5, h6, h7]
    by_cases h8 : env.charger_status (.bq24295_set_battery_low_threshold charger K.BQ24295_BATTERY_LOW_THRESHOLD_2_8V) = 0
    swap
    · simp [power_control_init, h1, h2, h3, h4, h5, h6, h7, h8]
    by_cases h9 : env.charger_status (.bq24295_set_recharge_threshold charger K.BQ24295_RECHARGE_THRESHOLD_300MV) = 0
    swap
    · simp [power_control_init, h1, h2, h3, h4, h5, h6, h7, h8, h9]
    simp [power_control_init, ESP_OK, h1, h2, h3, h4, h5, h6, h7, h8, h9]
  · intro i c hi hd hc
    have hlt : i < 9 := by
      have := (List.getElem?_eq_some_iff.mp hi).1
      simpa [power_control_init_charger_calls] using this
    simp only [ESP_OK] at hd hc
    interval_cases i <;>
      simp only [power_control_init_charger_calls, List.getElem?_cons_zero,
        List.getElem?_cons_succ, Option.some.injEq] at hi <;>
      subst hi <;>
      simp only [power_control_init_charger_calls, List.take_succ_cons, List.take_zero,
        List.mem_cons, List.not_mem_nil, or_false, forall_eq_or_imp, forall_eq,
        false_imp_iff, implies_true, and_true] at hd <;>
      simp [power_control_init, power_control_init_charger_calls, power_control_init_gpio_calls,
        is_charger_call, is_schedule_call, hd, hc]
  · simp [power_control_init_charger_calls]

/-- Witness of C10: the charger accepts the first call and fails to reset;
`power_control_init` returns the status of the reset, has made these two
charger calls and has left the zero-initialised controller alone. -/
theorem power_control_init_status_witness :
    (power_control_init sample_constants (sample_env_reset_fails 0) 1 power_control_zero).1 = -1 ∧
    (power_control_init sample_constants (sample_env_reset_fails 0) 1
      power_control_zero).2.calls.filter is_charger_call =
      [.bq24295_set_shutdown 1 false, .bq24295_reset 1] ∧
    (power_control_init sample_constants (sample_env_reset_fails 0) 1
      power_control_zero).2.calls.filter is_schedule_call = [] ∧
    (power_control_init sample_constants (sample_env_reset_fails 0) 1
      power_control_zero).2.power_control = power_control_zero ∧
    (power_control_init sample_constants (sample_env_reset_fails 0) 1
      power_control_zero).2.aborted = false :=
  (power_control_init_status sample_constants (sample_env_reset_fails 0) 1
    power_control_zero).2.1 1 (.bq24295_reset 1) rfl (by decide) (by decide)

/-! ## Failed power-good query -/

/-- C11: in SOFT_OFF with the switch debounced to FALSE, a power-good query
that returns an error leaves the state in SOFT_OFF and the power-good filter
as it was (no sample is fed), and the tick issues neither the
watchdog-disable nor the shutdown command: the query is the only call of the
state machine, and the tick runs to its end. -/
theorem power_good_error_keeps_soft_off (K : header_constants) (env : environment)
    (pc : power_control_t)
    (hs : pc.power_state = .POWER_STATE_SOFT_OFF)
    (hsw : debounce_bool_get_value (switch_debounce_after env pc) = .DEBOUNCE_FALSE)
    (hq : env.charger_status (.bq24295_is_power_good pc.charger) ≠ ESP_OK) :
    (power_control_update K env pc).power_control.power_state = .POWER_STATE_SOFT_OFF ∧
    (power_control_update K env pc).power_control.power_good_debounce =
      pc.power_good_debounce ∧
    (power_control_update K env pc).calls.countP (is_watchdog_disable_command K) = 0 ∧
    (power_control_update K env pc).calls.countP is_shutdown_command = 0 ∧
    (power_control_update K env pc).calls.filter is_power_sequencing_call =
      [.bq24295_is_power_good pc.charger] ∧
    (power_control_update K env pc).aborted = false := by
  simp only [ESP_OK] at hq
  have hsw1 : (power_control_update_switch K env (power_control_sampled env pc)) =
      { power_control := power_control_sampled env pc
        calls := [.bq24295_is_power_good pc.charger]
        aborted := false } := by
    unfold power_control_update_switch
    simp [power_control_sampled, hs, hsw, hq]
  rw [power_control_update_power_state, power_control_update_power_good_debounce,
    countP_watchdog_disable_eq, countP_shutdown_eq, power_control_update_calls_filter,
    power_control_update_aborted, hsw1]
  simp [power_control_sampled, hs, is_watchdog_disable_command, is_shutdown_command]

/-- Witness of C11: the controller in SOFT_OFF and a charger that answers the
power-good query with `ESP_FAIL`. -/
theorem power_good_error_keeps_soft_off_witness :
    (power_control_update sample_constants (sample_env_power_good_fails 0)
      sample_soft_off).power_control.power_state = .POWER_STATE_SOFT_OFF ∧
    (power_control_update sample_constants (sample_env_power_good_fails 0)
      sample_soft_off).power_control.power_good_debounce =
      sample_soft_off.power_good_debounce :=
  ⟨(power_good_error_keeps_soft_off sample_constants (sample_env_power_good_fails 0)
      sample_soft_off (by decide) (by decide) (by decide)).1,
   (power_good_error_keeps_soft_off sample_constants (sample_env_power_good_fails 0)
      sample_soft_off (by decide) (by decide) (by decide)).2.1⟩

/-! ## Reading the power state -/

/-- C13: `power_control_is_powered_off` is true exactly in SOFT_OFF and
HARD_OFF and false exactly in ON; it is a function of the controller state
alone and returns nothing but the boolean. -/
theorem is_powered_off_iff (pc : power_control_t) :
    (power_control_is_powered_off pc = true ↔
      pc.power_state = .POWER_STATE_SOFT_OFF ∨ pc.power_state = .POWER_STATE_HARD_OFF) ∧
    (power_control_is_powered_off pc = true ↔ pc.power_state ≠ .POWER_STATE_ON) ∧
    (power_control_is_powered_off pc = false ↔ pc.power_state = .POWER_STATE_ON) := by
  unfold power_control_is_powered_off
  cases pc.power_state <;> simp

/-! ## `util.h`: `ALIGN_UP` -/

/-- The ways the `switch` statement of a tick can end: without a call (state
kept, ON to SOFT_OFF, or back to ON), after a failed or inconclusive
power-good query, aborted by a refused command, or in HARD_OFF after both
commands. -/
theorem power_control_update_switch_cases (K : header_constants) (env : environment)
    (pc : power_control_t) :
    ((power_control_update_switch K env pc).calls = [] ∧
      (power_control_update_switch K env pc).aborted = false ∧
      ((power_control_update_switch K env pc).power_control.power_state = pc.power_state ∨
        (pc.power_state = .POWER_STATE_ON ∧
          (power_control_update_switch K env pc).power_control.power_state =
            .POWER_STATE_SOFT_OFF) ∨
        (pc.power_state ≠ .POWER_STATE_ON ∧
          (power_control_update_switch K env pc).power_control.power_state =
            .POWER_STATE_ON))) ∨
    (pc.power_state = .POWER_STATE_SOFT_OFF ∧
      (power_control_update_switch K env pc).calls = [.bq24295_is_power_good pc.charger] ∧
      (power_control_update_switch K env pc).aborted = false ∧
      (power_control_update_switch K env pc).power_control.power_state =
        .POWER_STATE_SOFT_OFF) ∨
    (pc.power_state = .POWER_STATE_SOFT_OFF ∧
      (power_control_update_switch K env pc).calls =
        [.bq24295_is_power_good pc.charger,
         .bq24295_set_watchdog_timeout pc.charger K.BQ24295_WATCHDOG_TIMEOUT_DISABLED] ∧
      (power_control_update_switch K env pc).aborted = true ∧
      (power_control_update_switch K env pc).power_control.power_state =
        .POWER_STATE_SOFT_OFF) ∨
    (pc.power_state = .POWER_STATE_SOFT_OFF ∧
      (power_control_update_switch K env pc).calls =
        [.bq24295_is_power_good pc.charger,
         .bq24295_set_watchdog_timeout pc.charger K.BQ24295_WATCHDOG_TIMEOUT_DISABLED,
         .bq24295_set_shutdown pc.charger true] ∧
      (((power_control_update_switch K env pc).aborted = true ∧
          (power_control_update_switch K env pc).power_control.power_state =
            .POWER_STATE_SOFT_OFF) ∨
        ((power_control_update_switch K env pc).aborted = false ∧
          (power_control_update_switch K env pc).power_control.power_state =
            .POWER_STATE_HARD_OFF))) := by
  unfold power_control_update_switch
  cases hs : pc.power_state <;> simp only <;> split_ifs <;> simp [hs]

theorem power_control_update_switch_charger (K : header_constants) (env : environment)
    (pc : power_control_t) :
    (power_control_update_switch K env pc).power_control.charger = pc.charger := by
  unfold power_control_update_switch
  cases pc.power_state <;> simp only <;> split_ifs <;> rfl

/-- The scheduler calls of a tick: none when it aborts, otherwise the one at
its end. -/
theorem power_control_update_rest_schedule (K : header_constants) (env : environment)
    (r1 : outcome) (h1 : r1.calls.filter is_schedule_call = []) :
    (power_control_update_rest K env r1).calls.filter is_schedule_call =
      if r1.aborted then [] else [.scheduler_schedule_task_relative (MS_TO_US 250)] := by
  simp only [power_control_update_rest, power_control_update_charger,
    force_input_current_limit, power_control_update_tx, power_control_tx]
  split_ifs <;> simp [is_schedule_call, h1]

theorem power_control_update_rest_getLast (K : header_constants) (env : environment)
    (r1 : outcome) (h1 : r1.aborted = false) :
    (power_control_update_rest K env r1).calls.getLast? =
      some (.scheduler_schedule_task_relative (MS_TO_US 250)) := by
  simp only [power_control_update_rest, h1, Bool.false_eq_true, if_false]
  rw [List.getLast?_append]
  simp

/-- The maintenance calls of a tick that does not abort are those of the
charger maintenance step. -/
theorem power_control_update_rest_maintenance (K : header_constants) (env : environment)
    (r1 : outcome) (h1 : r1.aborted = false)
    (h2 : r1.calls.filter is_maintenance_call = []) :
    (power_control_update_rest K env r1).calls.filter is_maintenance_call =
      (power_control_update_charger env r1.power_control).calls.filter
        is_maintenance_call := by
  simp only [power_control_update_rest, h1, Bool.false_eq_true, if_false,
    power_control_update_tx, power_control_tx]
  split_ifs <;> simp [is_maintenance_call, h2]

theorem power_control_update_switch_calls_other (K : header_constants) (env : environment)
    (pc : power_control_t) :
    (power_control_update_switch K env pc).calls.filter is_schedule_call = [] ∧
    (power_control_update_switch K env pc).calls.filter is_maintenance_call = [] := by
  rcases power_control_update_switch_cases K env pc with h | h | h | h
  · simp [h.1]
  · simp [h.2.1, is_schedule_call, is_maintenance_call]
  · simp [h.2.1, is_schedule_call, is_maintenance_call]
  · simp [h.2.1, is_schedule_call, is_maintenance_call]

/-- The maintenance calls of the charger maintenance step. -/
theorem power_control_update_charger_maintenance (env : environment) (pc : power_control_t) :
    (power_control_update_charger env pc).calls.filter is_maintenance_call =
      if ms_since_last_watchdog_reset env pc < CHARGER_WATCHDOG_RESET_INTERVAL_MS then []
      else if env.charger_status (.bq24295_get_input_current_limit pc.charger) ≠ ESP_OK then
        [.bq24295_get_input_current_limit pc.charger, .bq24295_watchdog_reset pc.charger]
      else if env.current_limit_ma ≠ 1500 then
        [.bq24295_get_input_current_limit pc.charger,
         .bq24295_set_input_current_limit pc.charger 1500,
         .bq24295_watchdog_reset pc.charger]
      else
        [.bq24295_get_input_current_limit pc.charger, .bq24295_watchdog_reset pc.charger] := by
  simp only [power_control_update_charger, force_input_current_limit, ESP_OK]
  by_cases h1 : ms_since_last_watchdog_reset env pc < CHARGER_WATCHDOG_RESET_INTERVAL_MS
  · simp [h1, Nat.not_le.mpr h1, is_maintenance_call]
  · simp only [h1, Nat.not_lt.mp h1, if_true, if_false]
    split_ifs <;> simp [is_maintenance_call]

/-! ## Completion and rescheduling of a tick -/

/-- Counterexample to C12 as stated: in SOFT_OFF, on the tick that would cut
the power, a charger that refuses the watchdog command makes
`ESP_ERROR_CHECK` abort the tick; the tick does not run to its end and does
not reschedule itself. -/
theorem update_reschedule_counterexample :
    (sample_env_watchdog_fails 0).charger_status
      (.bq24295_set_watchdog_timeout sample_soft_off.charger
        sample_constants.BQ24295_WATCHDOG_TIMEOUT_DISABLED) ≠ ESP_OK ∧
    (power_control_update sample_constants (sample_env_watchdog_fails 0)
      sample_soft_off).aborted = true ∧
    (power_control_update sample_constants (sample_env_watchdog_fails 0)
      sample_soft_off).calls.countP is_schedule_call = 0 := by
  decide

/-- C12 (amended): a tick is aborted exactly when, in SOFT_OFF with the
switch debounced to FALSE and a successful power-good query whose sample
changes the power-good value to FALSE, the charger refuses the
watchdog-disable or the shutdown command.  Every other tick, in every power
state and whatever the power-good query, the reading and writing of the input
current limit and the watchdog reset return, runs to its end and reschedules
itself exactly once, as its last call, 250 ms (250000 us) later. -/
theorem power_control_update_reschedules (K : header_constants) (env : environment)
    (pc : power_control_t) :
    ((power_control_update K env pc).aborted = true ↔
      pc.power_state = .POWER_STATE_SOFT_OFF ∧
      debounce_bool_get_value (switch_debounce_after env pc) = .DEBOUNCE_FALSE ∧
      env.charger_status (.bq24295_is_power_good pc.charger) = ESP_OK ∧
      (debounce_bool_update pc.power_good_debounce env.power_good).1 = true ∧
      debounce_bool_get_value
        (debounce_bool_update pc.power_good_debounce env.power_good).2 = .DEBOUNCE_FALSE ∧
      (env.charger_status (.bq24295_set_watchdog_timeout pc.charger
          K.BQ24295_WATCHDOG_TIMEOUT_DISABLED) ≠ ESP_OK ∨
        env.charger_status (.bq24295_set_shutdown pc.charger true) ≠ ESP_OK)) ∧
    ((power_control_update K env pc).aborted = false →
      (power_control_update K env pc).calls.filter is_schedule_call =
        [.scheduler_schedule_task_relative 250000] ∧
      (power_control_update K env pc).calls.countP is_schedule_call = 1 ∧
      (power_control_update K env pc).calls.getLast? =
        some (.scheduler_schedule_task_relative 250000)) := by
  constructor
  · rw [power_control_update_aborted]
    unfold power_control_update_switch
    cases hs : pc.power_state <;> simp only [power_control_sampled, hs] <;> split_ifs <;>
      simp_all [ESP_OK]
  · intro hab
    have h250 : MS_TO_US 250 = 250000 := by decide
    have hfil : (power_control_update K env pc).calls.filter is_schedule_call =
        [.scheduler_schedule_task_relative 250000] := by
      rw [power_control_update_aborted] at hab
      rw [power_control_update_eq, power_control_update_rest_schedule K env _
        (power_control_update_switch_calls_other K env _).1, hab, h250]
      simp
    refine ⟨hfil, ?_, ?_⟩
    · rw [List.countP_eq_length_filter, hfil]
      rfl
    · rw [power_control_update_aborted] at hab
      rw [power_control_update_eq, power_control_update_rest_getLast K env _ hab, h250]

/-- Witness of C12 (amended): in SOFT_OFF a failed power-good query does not
abort the tick, which reschedules itself. -/
theorem power_control_update_reschedules_witness :
    (power_control_update sample_constants (sample_env_power_good_fails 0)
      sample_soft_off).calls.countP is_schedule_call = 1 :=
  ((power_control_update_reschedules sample_constants (sample_env_power_good_fails 0)
    sample_soft_off).2 (by decide)).2.1

/-! ## Sampling the switch -/

theorem power_control_update_rest_gpio (K : header_constants) (env : environment)
    (r1 : outcome) (h1 : call.gpio_get_level GPIO_POWER_ON ∉ r1.calls) :
    (power_control_update_rest K env r1).calls.head? = some (.gpio_get_level GPIO_POWER_ON) ∧
    (power_control_update_rest K env r1).calls.count (.gpio_get_level GPIO_POWER_ON) = 1 := by
  have h0 : r1.calls.count (.gpio_get_level GPIO_POWER_ON) = 0 :=
    List.count_eq_zero_of_not_mem h1
  simp only [power_control_update_rest, power_control_update_charger,
    force_input_current_limit, power_control_update_tx, power_control_tx]
  split_ifs <;> simp [h0]

theorem power_control_update_switch_no_gpio (K : header_constants) (env : environment)
    (pc : power_control_t) :
    call.gpio_get_level GPIO_POWER_ON ∉ (power_control_update_switch K env pc).calls := by
  rcases power_control_update_switch_cases K env pc with h | h | h | h
  · simp [h.1]
  · simp [h.2.1]
  · simp [h.2.1]
  · simp [h.2.1]

/-- C16: on every tick the switch filter is fed one sample, the OR of the
input level and the ignore flag: with the flag set the sample is TRUE for
every level, with the flag clear it is the level.  The input is read once,
as the first call of the tick, and the state transition is evaluated on the
filter that already holds the sample. -/
theorem switch_sample_is_level_or_flag (K : header_constants) (env : environment)
    (pc : power_control_t) :
    (power_control_update K env pc).power_control.power_switch_debounce =
      (debounce_bool_update pc.power_switch_debounce
        ((env.gpio_level != 0) || pc.ignore_power_switch)).2 ∧
    (pc.ignore_power_switch = true →
      (power_control_update K env pc).power_control.power_switch_debounce =
        (debounce_bool_update pc.power_switch_debounce true).2) ∧
    (pc.ignore_power_switch = false →
      (power_control_update K env pc).power_control.power_switch_debounce =
        (debounce_bool_update pc.power_switch_debounce (env.gpio_level != 0)).2) ∧
    (power_control_update K env pc).calls.head? = some (.gpio_get_level GPIO_POWER_ON) ∧
    (power_control_update K env pc).calls.count (.gpio_get_level GPIO_POWER_ON) = 1 ∧
    (power_control_update K env pc).power_control.power_state =
      (power_control_update_switch K env
        { pc with power_switch_debounce :=
                    (debounce_bool_update pc.power_switch_debounce
                      ((env.gpio_level != 0) || pc.ignore_power_switch)).2
        }).power_control.power_state := by
  have hsw : (power_control_update K env pc).power_control.power_switch_debounce =
      (debounce_bool_update pc.power_switch_debounce
        ((env.gpio_level != 0) || pc.ignore_power_switch)).2 := by
    obtain ⟨cfg, hcfg⟩ := power_control_update_rest_power_control K env
      (power_control_update_switch K env (power_control_sampled env pc))
    rw [power_control_update_eq, hcfg]
    simp only [power_control_update_switch_power_switch_debounce]
    rfl
  have hgpio := power_control_update_rest_gpio K env _
    (power_control_update_switch_no_gpio K env (power_control_sampled env pc))
  refine ⟨hsw, ?_, ?_, ?_, ?_, ?_⟩
  · intro h
    rw [hsw, h, Bool.or_true]
  · intro h
    rw [hsw, h, Bool.or_false]
  · rw [power_control_update_eq]
    exact hgpio.1
  · rw [power_control_update_eq]
    exact hgpio.2
  · exact power_control_update_power_state K env pc

/-- Witness of C16: with the ignore flag set, a tick that reads the switch
low feeds TRUE. -/
theorem switch_sample_is_level_or_flag_witness :
    (power_control_update sample_constants (sample_env 0 0)
      { sample_on_pressed with ignore_power_switch := true }).power_control.power_switch_debounce =
      (debounce_bool_update sample_on_pressed.power_switch_debounce true).2 :=
  (switch_sample_is_level_or_flag sample_constants (sample_env 0 0)
    { sample_on_pressed with ignore_power_switch := true }).2.1 rfl

/-! ## Charger maintenance when it is due -/

theorem power_control_update_switch_timestamp (K : header_constants) (env : environment)
    (pc : power_control_t) :
    (power_control_update_switch K env pc).power_control.timestamp_charger_watchdog_reset =
      pc.timestamp_charger_watchdog_reset := by
  unfold power_control_update_switch
  cases pc.power_state <;> simp only <;> split_ifs <;> rfl

/-- The maintenance calls of a tick that runs to its end. -/
theorem power_control_update_maintenance (K : header_constants) (env : environment)
    (pc : power_control_t) (hab : (power_control_update K env pc).aborted = false) :
    (power_control_update K env pc).calls.filter is_maintenance_call =
      if ms_since_last_watchdog_reset env pc < CHARGER_WATCHDOG_RESET_INTERVAL_MS then []
      else if env.charger_status (.bq24295_get_input_current_limit pc.charger) ≠ ESP_OK then
        [.bq24295_get_input_current_limit pc.charger, .bq24295_watchdog_reset pc.charger]
      else if env.current_limit_ma ≠ 1500 then
        [.bq24295_get_input_current_limit pc.charger,
         .bq24295_set_input_current_limit pc.charger 1500,
         .bq24295_watchdog_reset pc.charger]
      else
        [.bq24295_get_input_current_limit pc.charger, .bq24295_watchdog_reset pc.charger] := by
  rw [power_control_update_aborted] at hab
  have hms : ms_since_last_watchdog_reset env
      (power_control_update_switch K env (power_control_sampled env pc)).power_control =
        ms_since_last_watchdog_reset env pc := by
    simp only [ms_since_last_watchdog_reset, power_control_update_switch_timestamp]
    rfl
  have hch : (power_control_update_switch K env
      (power_control_sampled env pc)).power_control.charger = pc.charger := by
    rw [power_control_update_switch_charger]
    rfl
  rw [power_control_update_eq, power_control_update_rest_maintenance K env _ hab
    (power_control_update_switch_calls_other K env _).2,
    power_control_update_charger_maintenance, hms, hch]

set_option maxRecDepth 20000 in
/-- Counterexample to C18 as stated: 10 s after boot, in SOFT_OFF, on the tick
that would cut the power, a charger that refuses the watchdog command makes
`ESP_ERROR_CHECK` abort the tick before the maintenance: 10000 ms have
elapsed and no watchdog reset is issued. -/
theorem maintenance_due_counterexample :
    CHARGER_WATCHDOG_RESET_INTERVAL_MS ≤
      ms_since_last_watchdog_reset (sample_env_watchdog_fails 10000000) sample_soft_off ∧
    (power_control_update sample_constants (sample_env_watchdog_fails 10000000)
      sample_soft_off).calls.count (.bq24295_watchdog_reset sample_soft_off.charger) = 0 ∧
    (power_control_update sample_constants (sample_env_watchdog_fails 10000000)
      sample_soft_off).calls.filter is_maintenance_call = [] := by
  decide

/-- C18 (amended): on a tick that runs to its end (no `ESP_ERROR_CHECK`
aborts it) and on which at least 10000 ms have elapsed since
`timestamp_charger_watchdog_reset`, the input current limit is read once and
the charger watchdog is reset once, whether or not the read succeeds; the
limit is written, to 1500 mA and once, exactly when the read succeeds and
returns a value other than 1500.  On a tick on which less than 10000 ms have
elapsed none of the three calls is issued.  The elapsed time is the
difference of clock and timestamp in whole milliseconds. -/
theorem charger_maintenance_when_due (K : header_constants) (env : environment)
    (pc : power_control_t) (hab : (power_control_update K env pc).aborted = false) :
    (CHARGER_WATCHDOG_RESET_INTERVAL_MS ≤ ms_since_last_watchdog_reset env pc →
      (power_control_update K env pc).calls.count (.bq24295_watchdog_reset pc.charger) = 1 ∧
      (power_control_update K env pc).calls.filter is_maintenance_call =
        if env.charger_status (.bq24295_get_input_current_limit pc.charger) = ESP_OK ∧
            env.current_limit_ma ≠ 1500 then
          [.bq24295_get_input_current_limit pc.charger,
           .bq24295_set_input_current_limit pc.charger 1500,
           .bq24295_watchdog_reset pc.charger]
        else
          [.bq24295_get_input_current_limit pc.charger,
           .bq24295_watchdog_reset pc.charger]) ∧
    (ms_since_last_watchdog_reset env pc < CHARGER_WATCHDOG_RESET_INTERVAL_MS →
      (power_control_update K env pc).calls.filter is_maintenance_call = []) ∧
    (pc.timestamp_charger_watchdog_reset ≤ env.esp_timer →
      env.esp_timer - pc.timestamp_charger_watchdog_reset < 2 ^ 64 →
      ms_since_last_watchdog_reset env pc =
        (env.esp_timer - pc.timestamp_charger_watchdog_reset).toNat / 1000) := by
  have hfil := power_control_update_maintenance K env pc hab
  refine ⟨?_, ?_, ?_⟩
  · intro hdue
    have hnot : ¬ ms_since_last_watchdog_reset env pc < CHARGER_WATCHDOG_RESET_INTERVAL_MS :=
      Nat.not_lt.mpr hdue
    have hfil2 : (power_control_update K env pc).calls.filter is_maintenance_call =
        if env.charger_status (.bq24295_get_input_current_limit pc.charger) = ESP_OK ∧
            env.current_limit_ma ≠ 1500 then
          [.bq24295_get_input_current_limit pc.charger,
           .bq24295_set_input_current_limit pc.charger 1500,
           .bq24295_watchdog_reset pc.charger]
        else
          [.bq24295_get_input_current_limit pc.charger,
           .bq24295_watchdog_reset pc.charger] := by
      rw [hfil, if_neg hnot]
      by_cases h1 : env.charger_status (.bq24295_get_input_current_limit pc.charger) = ESP_OK
      · by_cases h2 : env.current_limit_ma = 1500 <;> simp [h1, h2]
      · simp [h1]
    refine ⟨?_, hfil2⟩
    have hcount : ∀ l : List call, l.count (.bq24295_watchdog_reset pc.charger) =
        (l.filter is_maintenance_call).count (.bq24295_watchdog_reset pc.charger) := by
      intro l
      induction l with
      | nil => rfl
      | cons c l ih =>
        by_cases hc : is_maintenance_call c = true
        · simp [List.filter_cons, hc, List.count_cons, ih]
        · have hne : c ≠ .bq24295_watchdog_reset pc.charger := by
            intro h
            rw [h] at hc
            exact hc rfl
          simp [List.filter_cons, hc, List.count_cons, ih, hne]
    rw [hcount, hfil2]
    split_ifs <;> simp
  · intro hlt
    rw [hfil, if_pos hlt]
  · intro h1 h2
    simp only [ms_since_last_watchdog_reset]
    rw [Int.emod_eq_of_lt (by omega) h2]

/-- Witness of C18 (amended): a tick of the sample controller 10 s after boot
reads the limit and resets the watchdog. -/
theorem charger_maintenance_when_due_witness :
    (power_control_update sample_constants (sample_env 1 10000000)
      sample_on_pressed).calls.count (.bq24295_watchdog_reset sample_on_pressed.charger) = 1 :=
  ((charger_maintenance_when_due sample_constants (sample_env 1 10000000) sample_on_pressed
    (by decide)).1 (by decide)).1

/-! ## Charger commands of the state machine -/

/-- After the `switch` statement a tick makes no charger call outside the
charger maintenance. -/
theorem power_control_update_rest_charger_calls (K : header_constants) (env : environment)
    (r1 : outcome) :
    (power_control_update_rest K env r1).calls.filter
        (fun c => is_charger_call c && !is_maintenance_call c) =
      r1.calls.filter (fun c => is_charger_call c && !is_maintenance_call c) := by
  simp only [power_control_update_rest, power_control_update_charger,
    force_input_current_limit, power_control_update_tx, power_control_tx]
  split_ifs <;> simp [is_charger_call, is_maintenance_call]

theorem power_control_update_charger_calls (K : header_constants) (env : environment)
    (pc : power_control_t)
    (h : (power_control_update_switch K env (power_control_sampled env pc)).calls = []) :
    ∀ c ∈ (power_control_update K env pc).calls,
      is_charger_call c = true → is_maintenance_call c = true := by
  have hf := power_control_update_rest_charger_calls K env
    (power_control_update_switch K env (power_control_sampled env pc))
  rw [h, List.filter_nil, List.filter_eq_nil_iff] at hf
  intro c hc hch
  have := hf c (by rw [← power_control_update_eq]; exact hc)
  simpa [hch] using this

/-- Counterexample to C19 as stated: in SOFT_OFF, on the tick that would cut
the power, a charger that accepts the watchdog command and refuses the
shutdown command: the tick issues both commands and is aborted by
`ESP_ERROR_CHECK` without taking the transition to HARD_OFF. -/
theorem commands_without_transition_counterexample :
    (power_control_update sample_constants (sample_env_shutdown_fails 0)
      sample_soft_off).calls.countP (is_watchdog_disable_command sample_constants) = 1 ∧
    (power_control_update sample_constants (sample_env_shutdown_fails 0)
      sample_soft_off).calls.countP is_shutdown_command = 1 ∧
    (power_control_update sample_constants (sample_env_shutdown_fails 0)
      sample_soft_off).power_control.power_state ≠ .POWER_STATE_HARD_OFF ∧
    (power_control_update sample_constants (sample_env_shutdown_fails 0)
      sample_soft_off).aborted = true := by
  decide

/-- C19 (amended): a tick that takes the transition SOFT_OFF to HARD_OFF has
issued the watchdog-disable and the shutdown command, once each; a tick that
issues one of them started in SOFT_OFF and either takes that transition or is
aborted by `ESP_ERROR_CHECK`.  No tick goes from ON to HARD_OFF.  On the
transitions ON to SOFT_OFF, SOFT_OFF to ON and HARD_OFF to ON the state
machine makes no charger call: the only charger calls of such a tick are
those of the charger maintenance, so the output path is not re-enabled and
the watchdog timeout is not set. -/
theorem commands_only_on_hard_off_transition (K : header_constants) (env : environment)
    (pc : power_control_t) :
    (pc.power_state = .POWER_STATE_SOFT_OFF →
      (power_control_update K env pc).power_control.power_state = .POWER_STATE_HARD_OFF →
      (power_control_update K env pc).calls.countP (is_watchdog_disable_command K) = 1 ∧
      (power_control_update K env pc).calls.countP is_shutdown_command = 1 ∧
      (power_control_update K env pc).aborted = false) ∧
    (0 < (power_control_update K env pc).calls.countP (is_watchdog_disable_command K) ∨
        0 < (power_control_update K env pc).calls.countP is_shutdown_command →
      pc.power_state = .POWER_STATE_SOFT_OFF ∧
      ((power_control_update K env pc).power_control.power_state = .POWER_STATE_HARD_OFF ∨
        (power_control_update K env pc).aborted = true)) ∧
    (pc.power_state = .POWER_STATE_ON →
      (power_control_update K env pc).power_control.power_state ≠ .POWER_STATE_HARD_OFF) ∧
    ((pc.power_state = .POWER_STATE_ON ∧
          (power_control_update K env pc).power_control.power_state = .POWER_STATE_SOFT_OFF) ∨
        (pc.power_state = .POWER_STATE_SOFT_OFF ∧
          (power_control_update K env pc).power_control.power_state = .POWER_STATE_ON) ∨
        (pc.power_state = .POWER_STATE_HARD_OFF ∧
          (power_control_update K env pc).power_control.power_state = .POWER_STATE_ON) →
      (power_control_update K env pc).calls.filter is_power_sequencing_call = [] ∧
      (∀ c ∈ (power_control_update K env pc).calls,
        is_charger_call c = true → is_maintenance_call c = true) ∧
      (power_control_update K env pc).aborted = false) := by
  have hst := power_control_update_power_state K env pc
  have hab := power_control_update_aborted K env pc
  have hfil := power_control_update_calls_filter K env pc
  have hwd := countP_watchdog_disable_eq K (power_control_update K env pc).calls
  have hsd := countP_shutdown_eq (power_control_update K env pc).calls
  have hmaint := power_control_update_charger_calls K env pc
  have hps : (power_control_sampled env pc).power_state = pc.power_state := rfl
  rw [hfil] at hwd hsd
  rw [hst, hab, hfil, hwd, hsd]
  rcases power_control_update_switch_cases K env (power_control_sampled env pc) with
    h | h | h | h
  · obtain ⟨hc, ha, hs⟩ := h
    rw [hps] at hs
    rw [hc, ha]
    refine ⟨?_, by simp, ?_, ?_⟩
    · intro h1 h2
      rcases hs with hs | hs | hs
      · rw [hs, h1] at h2; cases h2
      · rw [hs.1] at h1; cases h1
      · rw [hs.2] at h2; cases h2
    · intro h1 h2
      rcases hs with hs | hs | hs
      · rw [hs, h1] at h2; cases h2
      · rw [hs.2] at h2; cases h2
      · exact hs.1 h1
    · intro _
      exact ⟨rfl, hmaint hc, rfl⟩
  · obtain ⟨hs, hc, ha, hs2⟩ := h
    rw [hps] at hs
    rw [hc, ha, hs2]
    simp [hs, is_watchdog_disable_command, is_shutdown_command]
  · obtain ⟨hs, hc, ha, hs2⟩ := h
    rw [hps] at hs
    rw [hc, ha, hs2]
    simp [hs, is_watchdog_disable_command, is_shutdown_command]
  · obtain ⟨hs, hc, h3⟩ := h
    rw [hps] at hs
    rw [hc]
    rcases h3 with ⟨ha, hs2⟩ | ⟨ha, hs2⟩ <;> rw [ha, hs2] <;>
      simp [hs, is_watchdog_disable_command, is_shutdown_command]

/-- Witness of C19 (amended): the tick that takes the sample controller from
SOFT_OFF to HARD_OFF has issued both commands. -/
theorem commands_only_on_hard_off_transition_witness :
    (power_control_update sample_constants (sample_env 0 0)
      sample_soft_off).calls.countP (is_watchdog_disable_command sample_constants) = 1 ∧
    (power_control_update sample_constants (sample_env 0 0)
      sample_soft_off).calls.countP is_shutdown_command = 1 ∧
    (power_control_update sample_constants (sample_env 0 0) sample_soft_off).aborted = false :=
  (commands_only_on_hard_off_transition sample_constants (sample_env 0 0)
    sample_soft_off).1 (by decide) (by decide)

/-! ## Layout of the broadcast packet -/

/-- C14: `power_control_tx` broadcasts one packet of the fixed size: byte 0
is the packet type tag, byte 1 is the flags byte, and the bytes from offset 2
on are the shared configuration header, nothing else; the flags byte is 1
when `ignore_power_switch` is set and 0 when it is clear, so all its bits
above bit 0 are clear. -/
theorem power_control_tx_packet_layout (K : header_constants) (env : environment)
    (pc : power_control_t) :
    (power_control_tx K env pc).calls.filter is_broadcast =
      [.wireless_broadcast (power_control_packet_bytes K (power_control_tx_packet K pc))] ∧
    (power_control_packet_bytes K (power_control_tx_packet K pc)).length =
      sizeof_power_control_packet_t K ∧
    (power_control_packet_bytes K (power_control_tx_packet K pc))[0]? =
      some (K.WIRELESS_PACKET_TYPE_POWER_CONTROL % 256) ∧
    (K.WIRELESS_PACKET_TYPE_POWER_CONTROL < 256 →
      (power_control_packet_bytes K (power_control_tx_packet K pc))[0]? =
        some K.WIRELESS_PACKET_TYPE_POWER_CONTROL) ∧
    (power_control_packet_bytes K (power_control_tx_packet K pc))[1]? =
      some (if pc.ignore_power_switch then 1 else 0) ∧
    (power_control_packet_bytes K (power_control_tx_packet K pc)).drop 2 =
      shared_config_hdr_bytes K (shared_config_hdr_init pc.shared_cfg) ∧
    ((power_control_packet_bytes K (power_control_tx_packet K pc)).drop 2).length =
      K.sizeof_shared_config_hdr_t ∧
    (∀ i : Nat, 0 < i →
      ((power_control_packet_bytes K (power_control_tx_packet K pc)).getD 1 0).testBit i =
        false) := by
  have hflags : (power_control_tx_packet K pc).flags % 256 =
      if pc.ignore_power_switch then 1 else 0 := by
    cases h : pc.ignore_power_switch <;>
      simp [power_control_tx_packet, h, FLAG_IGNORE_POWER_SWITCH, BIT]
  refine ⟨by simp [power_control_tx, is_broadcast], ?_, ?_, ?_, ?_, ?_, ?_, ?_⟩
  · simp only [power_control_packet_bytes, List.length_append, List.length_cons,
      List.length_nil, shared_config_hdr_bytes_length, sizeof_power_control_packet_t]
  · simp [power_control_packet_bytes, power_control_tx_packet]
  · intro h
    simp [power_control_packet_bytes, power_control_tx_packet, Nat.mod_eq_of_lt h]
  · simp only [power_control_packet_bytes, hflags]
    simp
  · simp [power_control_packet_bytes, power_control_tx_packet]
  · simp [power_control_packet_bytes, shared_config_hdr_bytes_length]
  · intro i hi
    simp only [power_control_packet_bytes, hflags]
    cases pc.ignore_power_switch
    · simp
    · simp only [List.cons_append, List.nil_append, List.getD_cons_succ, List.getD_cons_zero,
        if_true]
      rw [Nat.testBit, Nat.shiftRight_eq_div_pow]
      have : 1 / 2 ^ i = 0 := Nat.div_eq_of_lt (Nat.one_lt_two_pow (by omega))
      simp [this]

/-- Witness of C14: the packet of the sample controller with the flag set
and a type tag below 256. -/
theorem power_control_tx_packet_layout_witness :
    (power_control_packet_bytes sample_constants
      (power_control_tx_packet sample_constants
        { sample_on_pressed with ignore_power_switch := true }))[0]? = some 7 :=
  (power_control_tx_packet_layout sample_constants (sample_env 1 0)
    { sample_on_pressed with ignore_power_switch := true }).2.2.2.1 (by decide)

/-! ## The receive handler does not send -/

/-- C15: whatever the packet, `power_control_rx` broadcasts nothing and calls
neither `shared_config_update_local` nor `shared_config_tx_done`: its only
possible call is `shared_config_update_remote`, and the retransmission budget
and deadline of the shared configuration entry stay as they were. -/
theorem power_control_rx_does_not_send (K : header_constants) (packet : wireless_packet_t)
    (pc : power_control_t) :
    (∀ c ∈ (power_control_rx K packet pc).calls,
      is_broadcast c = false ∧ c ≠ .shared_config_update_local ∧
      c ≠ .shared_config_tx_done) ∧
    (power_control_rx K packet pc).calls.countP is_broadcast = 0 ∧
    (power_control_rx K packet pc).calls.count .shared_config_update_local = 0 ∧
    (power_control_rx K packet pc).calls.count .shared_config_tx_done = 0 ∧
    ((power_control_rx K packet pc).calls = [] ∨
      (power_control_rx K packet pc).calls =
        [.shared_config_update_remote
          (power_control_packet_of_bytes K packet.data).shared_cfg_hdr]) ∧
    (power_control_rx K packet pc).power_control.shared_cfg.tx_budget =
      pc.shared_cfg.tx_budget ∧
    (power_control_rx K packet pc).power_control.shared_cfg.tx_deadline =
      pc.shared_cfg.tx_deadline := by
  simp only [power_control_rx, shared_config_update_remote]
  split_ifs <;> simp [is_broadcast]

set_option maxRecDepth 20000 in
/-- Witness of C15: a packet of the sample size with a newer header is
adopted; the one call of the handler is not a broadcast. -/
theorem power_control_rx_does_not_send_witness :
    is_broadcast (.shared_config_update_remote 5) = false ∧
    call.shared_config_update_remote 5 ≠ .shared_config_update_local ∧
    call.shared_config_update_remote 5 ≠ .shared_config_tx_done :=
  (power_control_rx_does_not_send sample_constants
    { len := 10, data := [7, 255, 5, 0, 0, 0, 0, 0, 0, 0] } sample_on_pressed).1
    (.shared_config_update_remote 5) (by decide)

/-! ## Broadcasts after a local change -/

theorem tx_trace_counts (packets : List (List Nat)) :
    (tx_trace packets).countP is_broadcast = packets.length ∧
    (tx_trace packets).count .shared_config_tx_done = packets.length ∧
    call.shared_config_update_local ∉ tx_trace packets ∧
    ∀ data, call.wireless_broadcast data ∈ tx_trace packets → data ∈ packets := by
  induction packets with
  | nil => simp [tx_trace]
  | cons d ds ih =>
    obtain ⟨h1, h2, h3, h4⟩ := ih
    refine ⟨?_, ?_, ?_, ?_⟩
    · simp [tx_trace, List.countP_cons, is_broadcast, h1]
    · simp [tx_trace, List.count_cons, h2]
    · simp [tx_trace, h3]
    · intro data hd
      simp only [tx_trace, List.cons_append, List.nil_append, List.mem_cons,
        call.wireless_broadcast.injEq, reduceCtorEq, false_or] at hd
      rcases hd with hd | hd
      · simp [hd]
      · exact List.mem_cons_of_mem _ (h4 data hd)

/-- The broadcast loop of `config_changed` with `n` iterations runs
`power_control_tx` for `n` packets, each with the flags byte of the ignore
flag. -/
theorem config_changed_loop_trace (K : header_constants) (env : environment) (n : Nat) :
    ∀ pc : power_control_t, ∃ packets : List (List Nat), packets.length = n ∧
      (config_changed_loop K env n pc).calls = tx_trace packets ∧
      ∀ data ∈ packets, data.getD 1 0 = if pc.ignore_power_switch then 1 else 0 := by
  induction n with
  | zero => intro pc; exact ⟨[], rfl, rfl, by simp⟩
  | succ n ih =>
    intro pc
    obtain ⟨packets, hlen, hcalls, hflags⟩ := ih (power_control_tx K env pc).power_control
    refine ⟨power_control_packet_bytes K (power_control_tx_packet K pc) :: packets,
      by simp [hlen], ?_, ?_⟩
    · simp only [config_changed_loop, hcalls, tx_trace]
      rfl
    · intro data hd
      rcases List.mem_cons.mp hd with rfl | hd
      · cases h : pc.ignore_power_switch <;>
          simp [power_control_packet_bytes, power_control_tx_packet, h,
            FLAG_IGNORE_POWER_SWITCH, BIT]
      · exact hflags data hd

/-- C17: `power_control_set_ignore_power_switch v` with `v` different from
the flag calls `shared_config_update_local` and then runs `power_control_tx`
`SHARED_CONFIG_TX_TIMES` times before it returns: exactly that many packets
are broadcast, each with flags byte 1 for `v` set and 0 for `v` clear (bit 0
is `v`), and each broadcast is followed by one `shared_config_tx_done`. -/
theorem set_ignore_power_switch_broadcasts (K : header_constants) (env : environment)
    (v : Bool) (pc : power_control_t) (hv : v ≠ pc.ignore_power_switch) :
    (∃ packets : List (List Nat), packets.length = K.SHARED_CONFIG_TX_TIMES ∧
      (power_control_set_ignore_power_switch K env v pc).calls =
        .shared_config_update_local :: tx_trace packets ∧
      ∀ data ∈ packets, data.getD 1 0 = (if v then 1 else 0) ∧
        (data.getD 1 0).testBit 0 = v) ∧
    (power_control_set_ignore_power_switch K env v pc).calls.countP is_broadcast =
      K.SHARED_CONFIG_TX_TIMES ∧
    (power_control_set_ignore_power_switch K env v pc).calls.count .shared_config_tx_done =
      K.SHARED_CONFIG_TX_TIMES ∧
    (∀ data, call.wireless_broadcast data ∈
        (power_control_set_ignore_power_switch K env v pc).calls →
      (data.getD 1 0).testBit 0 = v) ∧
    (power_control_set_ignore_power_switch K env v pc).aborted = false := by
  obtain ⟨packets, hlen, hcalls, hflags⟩ := config_changed_loop_trace K env
    K.SHARED_CONFIG_TX_TIMES
    { pc with
        ignore_power_switch := v
        shared_cfg := shared_config_update_local K env.esp_timer pc.shared_cfg }
  have hcalls2 : (power_control_set_ignore_power_switch K env v pc).calls =
      .shared_config_update_local :: tx_trace packets := by
    simp only [power_control_set_ignore_power_switch, hv, ne_eq, not_false_eq_true, if_true,
      config_changed, hcalls]
  have hbit : ∀ data ∈ packets, data.getD 1 0 = (if v then 1 else 0) ∧
      (data.getD 1 0).testBit 0 = v := by
    intro data hd
    have := hflags data hd
    simp only at this
    rw [this]
    cases v <;> simp
  obtain ⟨h1, h2, _, h4⟩ := tx_trace_counts packets
  refine ⟨⟨packets, hlen, hcalls2, hbit⟩, ?_, ?_, ?_, ?_⟩
  · rw [hcalls2, List.countP_cons, h1, hlen]
    simp [is_broadcast]
  · rw [hcalls2, List.count_cons, h2, hlen]
    simp
  · intro data hd
    rw [hcalls2] at hd
    simp only [List.mem_cons, reduceCtorEq, false_or] at hd
    exact (hbit data (h4 data hd)).2
  · simp [power_control_set_ignore_power_switch, hv, config_changed]

/-- Witness of C17: setting the clear flag of the sample controller, with
`SHARED_CONFIG_TX_TIMES` = 3, broadcasts three packets. -/
theorem set_ignore_power_switch_broadcasts_witness :
    (power_control_set_ignore_power_switch sample_constants (sample_env 1 0) true
      sample_on_pressed).calls.countP is_broadcast = 3 :=
  (set_ignore_power_switch_broadcasts sample_constants (sample_env 1 0) true
    sample_on_pressed (by decide)).2.1

end PowerControl
